import Mathlib

/-!
Shallow embedding of the pipeline-orchestration core of the
synthetic-data-agent repository, together with proofs of the frozen
claims about it.

Embedded source files:
* `utils/resilience.py` — `CircuitBreaker.call` / `call_async` and the
  `retry_with_backoff` decorator;
* `src/orchestrator/workflows.py` — `PipelineProgress`, the five stage
  functions and the `generate_synthetic_data` orchestrator.

Modelling conventions:
* Python floats (timestamps, delays, quality scores) are embedded as `ℚ`;
  all arithmetic in the claims is exact, so no floating-point behaviour
  is load-bearing.
* `time.time()` is read at most twice within one `CircuitBreaker.call`
  (once for the recovery check, once on failure); both reads within one
  call are modelled by the single parameter `now` of `CircuitBreaker.call`.
* External collaborators (the storage layer `DatabaseTools`, the
  research/generation/review agents) are modelled by an oracle
  environment `Env` giving the outcome of each collaborator call; the
  stage workers' own control flow (try/except shape, result dictionaries,
  approval filter, counter updates) is translated from the source.
* Python `dict` results with a fixed key set are translated to
  structures; the `timestamp` field of an error-log entry
  (`datetime.utcnow().isoformat()`) is a wall-clock string irrelevant to
  every claim and is omitted from `ErrEntry`.
-/

namespace SyntheticDataAgent

/-! ## Circuit breaker (`utils/resilience.py`, class `CircuitBreaker`) -/

/-- States of `CircuitState` in `utils/resilience.py`:
CLOSED (normal operation), OPEN (failing, reject requests),
HALF_OPEN (testing if the service recovered). -/
inductive CircuitState where
  | closed
  | open_
  | half_open
  deriving DecidableEq, Repr

/-- State carried by a `CircuitBreaker` instance: the two configuration
fields of `__init__` and the three mutable fields.  `expected_exception`
is always `Exception` at every construction site in the repository, so
every raised error matches it and it is not modelled separately. -/
structure CircuitBreaker where
  failure_threshold : Nat
  recovery_timeout : ℚ
  failure_count : Nat
  last_failure_time : Option ℚ
  state : CircuitState
  deriving DecidableEq, Repr

/-- Breaker as constructed by `CircuitBreaker.__init__`: zero failures,
no last-failure time, state CLOSED. -/
def CircuitBreaker.init (failure_threshold : Nat) (recovery_timeout : ℚ) :
    CircuitBreaker :=
  { failure_threshold := failure_threshold
    recovery_timeout := recovery_timeout
    failure_count := 0
    last_failure_time := none
    state := CircuitState.closed }

/-- Outcome of invoking the wrapped callable once: a normal return or a
raised exception (carried as its message). -/
inductive CallOutcome (α : Type) where
  | ok (val : α)
  | fail (exc : String)
  deriving DecidableEq, Repr

/-- Result of `CircuitBreaker.call`: the callable's value, the callable's
re-raised exception, or `CircuitBreakerOpenError` raised without running
the callable. -/
inductive CallResult (α : Type) where
  | ok (val : α)
  | raised (exc : String)
  | circuitOpenError
  deriving DecidableEq, Repr

/-- Truthiness of the Python expression `self.last_failure_time`:
falsy when `None` and when `0.0`. -/
def pyTruthyTime : Option ℚ → Bool
  | none => false
  | some t => t ≠ 0

/-- Model of `CircuitBreaker.call` (and of the identically-structured
`call_async`): check the OPEN state with its lazy recovery transition,
then run the callable (whose behaviour this one call is given as
`outcome`) and do the success/failure bookkeeping.  Returns the call's
result together with the breaker state after the call. -/
def CircuitBreaker.call (b : CircuitBreaker) (now : ℚ) (outcome : CallOutcome α) :
    CallResult α × CircuitBreaker :=
  -- `if self.state == CircuitState.OPEN:` block
  let checked :
      Option (CallResult α × CircuitBreaker) × CircuitBreaker :=
    if b.state = CircuitState.open_ then
      if pyTruthyTime b.last_failure_time ∧
          b.recovery_timeout ≤ now - (b.last_failure_time.getD 0) then
        (none, { b with state := CircuitState.half_open, failure_count := 0 })
      else
        (some (CallResult.circuitOpenError, b), b)
    else
      (none, b)
  match checked with
  | (some early, _) => early
  | (none, b') =>
    match outcome with
    | CallOutcome.ok v =>
      if b'.state = CircuitState.half_open then
        (CallResult.ok v,
          { b' with state := CircuitState.closed, failure_count := 0 })
      else
        (CallResult.ok v, b')
    | CallOutcome.fail e =>
      let fc := b'.failure_count + 1
      (CallResult.raised e,
        { b' with
            failure_count := fc
            last_failure_time := some now
            state :=
              if b'.failure_threshold ≤ fc then CircuitState.open_
              else b'.state })

/-! ## Retry with backoff (`utils/resilience.py`, `retry_with_backoff`) -/

/-- Configuration parameters of the `retry_with_backoff` decorator. -/
structure RetryCfg where
  max_attempts : Nat
  initial_delay : ℚ
  max_delay : ℚ
  exponential_base : ℚ
  deriving Repr

/-- Worker configuration used at every per-item worker in
`src/orchestrator/workflows.py` stages 2–4
(`max_attempts=3, initial_delay=2.0, max_delay=10.0, exponential_base=2.0`). -/
def workerRetryCfg : RetryCfg :=
  { max_attempts := 3, initial_delay := 2, max_delay := 10, exponential_base := 2 }

/-- Backoff computed inside the retry loop for the 0-based attempt index
`k`: `min(initial_delay * (exponential_base ** attempt), max_delay)`. -/
def RetryCfg.delayFor (cfg : RetryCfg) (k : Nat) : ℚ :=
  min (cfg.initial_delay * cfg.exponential_base ^ k) cfg.max_delay

/-- Behaviour of one attempt of the wrapped callable: a normal return,
or an exception (with the flag telling whether its type matches the
`retry_on` tuple, i.e. whether `except retry_on` catches it). -/
inductive AttemptOutcome (α : Type) where
  | ok (val : α)
  | exc (msg : String) (retryable : Bool)
  deriving DecidableEq, Repr

/-- Observable outcome of a run of the retry wrapper: a returned value, a
propagated exception, or the implicit `None` return reached when the
`for attempt in range(max_attempts)` loop body never runs
(only possible for `max_attempts = 0`, where `last_exception` is `None`). -/
inductive RetryOutcome (α : Type) where
  | ok (val : α)
  | raised (exc : String)
  | fellThrough
  deriving DecidableEq, Repr

/-- Trace of a run of the retry wrapper: its outcome, the list of backoff
delays slept (in order), and how many times the wrapped callable
was invoked. -/
structure RetryRun (α : Type) where
  outcome : RetryOutcome α
  delays : List ℚ
  invocations : Nat
  deriving DecidableEq, Repr

/-- Loop body of `retry_with_backoff`'s wrappers, over the remaining
0-based attempt indices (the full loop iterates
`List.range cfg.max_attempts`) and with state `σ` threaded through the
attempts (the state models shared mutable collaborator state, e.g. a
circuit breaker, read and written by each attempt).
Mirrors the source:
* a normal return of the callable returns immediately;
* an exception not matching `retry_on` is not caught and propagates;
* a matching exception on the last attempt (`attempt == max_attempts - 1`)
  is re-raised;
* otherwise the wrapper sleeps `delayFor` and retries. -/
def retryGoSt (cfg : RetryCfg) (f : Nat → σ → AttemptOutcome α × σ) :
    List Nat → σ → RetryRun α × σ
  | [], s => ({ outcome := RetryOutcome.fellThrough, delays := [], invocations := 0 }, s)
  | k :: rest, s =>
    match f k s with
    | (AttemptOutcome.ok v, s') =>
      ({ outcome := RetryOutcome.ok v, delays := [], invocations := 1 }, s')
    | (AttemptOutcome.exc e retryable, s') =>
      if retryable = false then
        ({ outcome := RetryOutcome.raised e, delays := [], invocations := 1 }, s')
      else if k = cfg.max_attempts - 1 then
        ({ outcome := RetryOutcome.raised e, delays := [], invocations := 1 }, s')
      else
        let (r, s'') := retryGoSt cfg f rest s'
        ({ outcome := r.outcome
           delays := cfg.delayFor k :: r.delays
           invocations := r.invocations + 1 }, s'')

/-- Full run of a callable wrapped by `retry_with_backoff` with stateless
per-attempt behaviour `f` (attempt index ↦ outcome). -/
def retry_with_backoff (cfg : RetryCfg) (f : Nat → AttemptOutcome α) : RetryRun α :=
  (retryGoSt cfg (fun k s => (f k, s)) (List.range cfg.max_attempts) ()).1

/-! ## Pipeline data model (`src/orchestrator/workflows.py`) -/

/-- Question identifier (the numeric database id of a work item). -/
abbrev Qid := Nat

/-- Entry of `PipelineProgress.errors` as built by `add_error`:
question id, stage name and error message.  The `timestamp` field
(`datetime.utcnow().isoformat()`) is a wall-clock string used by no
claim and is omitted. -/
structure ErrEntry where
  question_id : Qid
  stage : String
  error : String
  deriving DecidableEq, Repr

/-- The `PipelineProgress` tracker: `total_questions` fixed at creation,
the six counters of `self.stages`, and the ordered error log. -/
structure Progress where
  total_questions : Nat
  questions_added : Nat
  researched : Nat
  generated : Nat
  reviewed : Nat
  approved : Nat
  failed : Nat
  errors : List ErrEntry
  deriving DecidableEq, Repr

/-- `PipelineProgress.__init__`: all counters zero, empty error log. -/
def Progress.init (total_questions : Nat) : Progress :=
  { total_questions := total_questions
    questions_added := 0, researched := 0, generated := 0
    reviewed := 0, approved := 0, failed := 0, errors := [] }

/-- `PipelineProgress.update`: increment the named counter by `count`
(no-op for an unknown stage name). -/
def Progress.update (p : Progress) (stage : String) (count : Nat) : Progress :=
  if stage = "questions_added" then { p with questions_added := p.questions_added + count }
  else if stage = "researched" then { p with researched := p.researched + count }
  else if stage = "generated" then { p with generated := p.generated + count }
  else if stage = "reviewed" then { p with reviewed := p.reviewed + count }
  else if stage = "approved" then { p with approved := p.approved + count }
  else if stage = "failed" then { p with failed := p.failed + count }
  else p

/-- `PipelineProgress.add_error`: append the entry to the error log and
increment the `failed` counter. -/
def Progress.add_error (p : Progress) (question_id : Qid) (stage : String)
    (error : String) : Progress :=
  Progress.update
    { p with errors := p.errors ++ [{ question_id := question_id, stage := stage, error := error }] }
    "failed" 1

/-- Outcome of one collaborator-backed operation as observed by the code
that inspects its result dictionary: `status == "success"` with a
payload, or any failing outcome carrying an error message.  For the
per-item workers this also covers the worker's internal
`except CircuitBreakerOpenError` / `except Exception` branches, which
convert every raised exception into an error dictionary before the
worker returns. -/
inductive WRes (α : Type) where
  | success (val : α)
  | error (msg : String)
  deriving DecidableEq, Repr

/-- Review payload extracted from `review_training_data`'s result in
stage 4: the verdict (`review_status`), quality score and notes. -/
structure Review where
  review_status : String
  quality_score : ℚ
  reviewer_notes : String
  deriving DecidableEq, Repr

/-- Generated data item flowing from stage 3 to stages 4 and 5: the
tracking id added by `_generate_single_data`
(`generated_data['question_id'] = question_id`), the generated payload
(opaque to the orchestrator), and the three review-metadata fields
stage 4 adds (`none` until review). -/
structure GenData where
  question_id : Qid
  payload : String
  quality_score : Option ℚ
  review_status : Option String
  reviewer_notes : Option String
  deriving DecidableEq, Repr

/-- Freshly generated item for id `q` with payload `payload`, before any
review metadata is attached. -/
def mkGen (q : Qid) (payload : String) : GenData :=
  { question_id := q, payload := payload, quality_score := none
    review_status := none, reviewer_notes := none }

/-- Return value of `DatabaseTools.get_question_by_id` as used by the
stage-4 ground-truth lookup: the record (only its
`ground_truth_context` field is read there), `None` (question not
found), or the `{"error": msg}` dictionary the method returns when the
query raises. -/
inductive GtLookup where
  | found (ground_truth_context : String)
  | notFound
  | errorDict (msg : String)
  deriving DecidableEq, Repr

/-- Oracle environment fixing the outcome of every external collaborator
call of one run.  Each field abstracts exactly one call site:
* `stage1` — the body of `stage_1_store_questions` applied to the
  (possibly truncated) question list: the stored ids on success, or any
  failing outcome (agent/database exception, circuit breaker open, or a
  non-success status from `add_questions_to_database`);
* `research` — the body of `_research_single_question` for one id
  (question fetch + `research_question` + context update, behind the
  research circuit breaker);
* generate — the body of `_generate_single_data` for one id: the
  generated payload on success;
* `review` — the body of `_review_single_data` for one item and
  ground-truth string, behind the review circuit breaker;
* `get_question` — the stage-4 synchronous
  `database_tools.get_question_by_id` ground-truth lookup;
* `store_final` — the stage-5 `add_synthetic_data` call for one item:
  the new record id on success. -/
structure Env where
  stage1 : List String → WRes (List Qid)
  research : Qid → WRes Unit
  generate : Qid → WRes String
  review : GenData → String → WRes Review
  get_question : Qid → GtLookup
  store_final : GenData → WRes Nat

/-- Entry appended to `results` by stage 5 on a successful store. -/
structure ResultEntry where
  question_id : Qid
  status : String
  generated_id : Nat
  quality_score : Option ℚ
  review_status : Option String
  deriving DecidableEq, Repr

/-- The `summary` dictionary computed at the end of a completed run. -/
structure Summary where
  total_questions : Nat
  researched : Nat
  generated : Nat
  reviewed : Nat
  approved : Nat
  rejected : Int
  failed : Nat
  success_rate : ℚ
  deriving DecidableEq, Repr

/-- Return value of `generate_synthetic_data`.  The four return sites
produce dictionaries with different key sets; absent keys are `none`:
* stage-1/stage-2 abort: `status`, `error`, `progress`;
* top-level exception handler: `status`, `error`, `progress`, `results`;
* completed run: `status`, `progress`, `results`, `summary`, `errors`.
The `progress` key holds `progress.get_summary()`, a pure projection of
the tracker; the full tracker state is kept here instead. -/
structure RunOutput where
  status : String
  error : Option String
  progress : Progress
  results : Option (List ResultEntry)
  summary : Option Summary
  errorsField : Option (List ErrEntry)
  deriving DecidableEq, Repr

/-! ## Batching (`for i in range(0, len(items), batch_size)`) -/

/-- Structural helper for `batches`: the fuel strictly decreases at each
step, and any fuel at least the list's length yields the full partition
(the fuel is only a termination device; see `batchesAux_fuel`). -/
def batchesAux (B : Nat) : Nat → List α → List (List α)
  | 0, _ => []
  | _, [] => []
  | fuel + 1, a :: t => (a :: t).take B :: batchesAux B fuel ((a :: t).drop B)

/-- Partition of a work list into the consecutive slices
`items[i:i+batch_size]` for `i in range(0, len(items), batch_size)`,
exactly as stages 2–4 group their inputs.  Python raises `ValueError`
for `batch_size = 0` (zero `range` step); the model returns `[]` there
and every theorem about batching assumes `0 < batch_size`. -/
def batches (B : Nat) (l : List α) : List (List α) :=
  if B = 0 then [] else batchesAux B l.length l

/-! ## Stage functions (`src/orchestrator/workflows.py`) -/

/-- Model of `stage_1_store_questions`.  The function body catches
`CircuitBreakerOpenError` and `Exception` and returns `[]` in both
handlers, and also returns `[]` (without updating progress) when the
database reports a non-success status; on success it bumps
`questions_added` by the number of stored ids.  Because the body
converts every exception into a normal `[]` return, the
`retry_with_backoff` decorator around it observes a successful first
attempt and never retries, so a single oracle outcome models the
decorated call. -/
def stage_1_store_questions (env : Env) (questions : List String)
    (prog : Progress) : List Qid × Progress :=
  match env.stage1 questions with
  | WRes.success ids =>
    (ids, prog.update "questions_added" ids.length)
  | WRes.error _ => ([], prog)

/-- Aggregation step of `stage_2_research_questions` for one worker
result: a success appends the id and bumps `researched`; an error is
recorded with `add_error` against the worker-reported question id.
(The worker `_research_single_question` always returns a result
dictionary — its body converts every exception into an error result —
so the `isinstance(result, Exception)` arm of the source is
unreachable and has no model counterpart.) -/
def researchStep (env : Env) (acc : List Qid × Progress) (question_id : Qid) :
    List Qid × Progress :=
  match env.research question_id with
  | WRes.success _ =>
    (acc.1 ++ [question_id], acc.2.update "researched" 1)
  | WRes.error msg =>
    (acc.1, acc.2.add_error question_id "research" msg)

/-- Model of `stage_2_research_questions`: process the ids in consecutive
batches of `batch_size`, firing the per-item workers of each batch and
aggregating their results in order (`asyncio.gather` preserves input
order), and return the successfully researched ids. -/
def stage_2_research_questions (env : Env) (question_ids : List Qid)
    (prog : Progress) (batch_size : Nat) : List Qid × Progress :=
  (batches batch_size question_ids).foldl
    (fun acc batch => batch.foldl (researchStep env) acc) ([], prog)

/-- Aggregation step of `stage_3_generate_data` for one worker result: a
success appends the generated item (tagged with its question id) and
bumps `generated`; an error is recorded with `add_error`. -/
def generateStep (env : Env) (acc : List GenData × Progress) (question_id : Qid) :
    List GenData × Progress :=
  match env.generate question_id with
  | WRes.success payload =>
    (acc.1 ++ [mkGen question_id payload], acc.2.update "generated" 1)
  | WRes.error msg =>
    (acc.1, acc.2.add_error question_id "generation" msg)

/-- Model of `stage_3_generate_data`: batched generation over the
researched ids, returning the generated data list. -/
def stage_3_generate_data (env : Env) (question_ids : List Qid)
    (prog : Progress) (batch_size : Nat) : List GenData × Progress :=
  (batches batch_size question_ids).foldl
    (fun acc batch => batch.foldl (generateStep env) acc) ([], prog)

/-- Ground-truth string stage 4 passes to the review worker:
`question_data.get("ground_truth_context", "") if question_data else ""`.
A `None` lookup result and the `{"error": ...}` dictionary both yield
`""` — a failed lookup is silently replaced by an empty context. -/
def gtString (env : Env) (question_id : Qid) : String :=
  match env.get_question question_id with
  | GtLookup.found gt => gt
  | GtLookup.notFound => ""
  | GtLookup.errorDict _ => ""

/-- The stage-4 approval filter
`review_status == "approved" or (auto_approve and review_status == "needs_revision")`. -/
def shouldStoreVerdict (auto_approve : Bool) (review_status : String) : Bool :=
  review_status == "approved" || (auto_approve && review_status == "needs_revision")

/-- Review metadata written onto a reviewed item by stage 4
(`data['quality_score'] = ...`, etc.). -/
def withReview (d : GenData) (r : Review) : GenData :=
  { d with quality_score := some r.quality_score
           review_status := some r.review_status
           reviewer_notes := some r.reviewer_notes }

/-- Aggregation step of `stage_4_review_data` for one item: on a
successful review, attach the review metadata, keep the item for
storage only when the approval filter passes, and bump `reviewed`
either way; on a review error, record it with `add_error`. -/
def reviewStep (env : Env) (auto_approve : Bool)
    (acc : List GenData × Progress) (d : GenData) : List GenData × Progress :=
  match env.review d (gtString env d.question_id) with
  | WRes.success r =>
    let d' := withReview d r
    ((if shouldStoreVerdict auto_approve r.review_status
      then acc.1 ++ [d'] else acc.1),
      acc.2.update "reviewed" 1)
  | WRes.error msg =>
    (acc.1, acc.2.add_error d.question_id "review" msg)

/-- Model of `stage_4_review_data`: batched review over the generated
items, returning the items retained for final storage. -/
def stage_4_review_data (env : Env) (auto_approve : Bool)
    (generated_data_list : List GenData) (prog : Progress)
    (batch_size : Nat) : List GenData × Progress :=
  (batches batch_size generated_data_list).foldl
    (fun acc batch => batch.foldl (reviewStep env auto_approve) acc)
    ([], prog)

/-- Loop body of `stage_5_final_storage` for one retained item: a
successful store bumps `approved` and appends a result entry; a
non-success status, a `CircuitBreakerOpenError` and any other exception
are all recorded with `add_error` against the item (the three source
branches differ only in the message text, which the oracle carries). -/
def storeStep (env : Env) (acc : List ResultEntry × Progress) (d : GenData) :
    List ResultEntry × Progress :=
  match env.store_final d with
  | WRes.success generated_id =>
    (acc.1 ++ [{ question_id := d.question_id, status := "success"
                 generated_id := generated_id
                 quality_score := d.quality_score
                 review_status := d.review_status }],
      acc.2.update "approved" 1)
  | WRes.error msg =>
    (acc.1, acc.2.add_error d.question_id "storage" msg)

/-- Model of `stage_5_final_storage`: sequential storage of each retained
item, returning the accumulated `results` entries. -/
def stage_5_final_storage (env : Env) (reviewed_data_list : List GenData)
    (prog : Progress) : List ResultEntry × Progress :=
  reviewed_data_list.foldl (storeStep env) ([], prog)

/-! ## Orchestrator (`generate_synthetic_data`) -/

/-- Values of the `TrainingType` enum in `schema/synthetic_data.py`. -/
def trainingTypeValues : List String :=
  ["sft", "dpo", "ppo", "grpo", "rlhf", "kto", "orpo", "chat", "qa"]

/-- Model of `str.lower()` (every training-type string in the repository
is ASCII, where `Char.toLower` agrees with Python's `str.lower`). -/
def pyLower (s : String) : String :=
  String.mk (s.data.map Char.toLower)

/-- Success of the conversion `TrainingType(training_type.lower())`
performed between stages 2 and 3; a non-member raises `ValueError`,
which the orchestrator's top-level handler turns into an error result. -/
def isValidTrainingType (training_type : String) : Bool :=
  trainingTypeValues.contains (pyLower training_type)

/-- The truncation `questions = questions[:max_questions]` guarded by
`if max_questions:` — applied only when `max_questions` is truthy,
i.e. neither `None` nor `0`. -/
def limitQuestions (questions : List String) (max_questions : Option Nat) :
    List String :=
  match max_questions with
  | none => questions
  | some m => if m ≠ 0 then questions.take m else questions

/-- The final-status derivation of `generate_synthetic_data`:
`"success"` when `approved == len(questions)`, else `"partial"` when
`approved > 0`, else `"error"`. -/
def finalStatus (approved total : Nat) : String :=
  if approved = total then "success"
  else if 0 < approved then "partial"
  else "error"

/-- Model of `generate_synthetic_data`: truncate the question list,
create the progress tracker, run the five stages with the two abort
checks (empty stage-1 ids, empty stage-2 ids) and the
`TrainingType(training_type.lower())` conversion (whose `ValueError`
for an invalid training type reaches the top-level exception handler),
then assemble the summary and the final status.  The model's oracles
are total, so the only reachable top-level-exception outcome is the
invalid-training-type one. -/
def generate_synthetic_data (env : Env) (questions : List String)
    (training_type : String) (max_questions : Option Nat)
    (auto_approve : Bool) (batch_size : Nat) : RunOutput :=
  let questions := limitQuestions questions max_questions
  let prog0 := Progress.init questions.length
  let s1 := stage_1_store_questions env questions prog0
  if s1.1.isEmpty then
    { status := "error", error := some "Failed to add questions to database"
      progress := s1.2, results := none, summary := none, errorsField := none }
  else
    let s2 := stage_2_research_questions env s1.1 s1.2 batch_size
    if s2.1.isEmpty then
      { status := "error", error := some "No questions were successfully researched"
        progress := s2.2, results := none, summary := none, errorsField := none }
    else if isValidTrainingType training_type = false then
      { status := "error"
        error := some ("'" ++ pyLower training_type ++ "' is not a valid TrainingType")
        progress := s2.2, results := some [], summary := none, errorsField := none }
    else
      let s3 := stage_3_generate_data env s2.1 s2.2 batch_size
      let s4 := stage_4_review_data env auto_approve s3.1 s3.2 batch_size
      let s5 := stage_5_final_storage env s4.1 s4.2
      let summary : Summary :=
        { total_questions := questions.length
          researched := s5.2.researched
          generated := s5.2.generated
          reviewed := s5.2.reviewed
          approved := s5.2.approved
          rejected := (s5.2.reviewed : Int) - (s5.2.approved : Int)
          failed := s5.2.failed
          success_rate :=
            if questions.length = 0 then 0
            else (s5.2.approved : ℚ) / (questions.length : ℚ) * 100 }
      { status := finalStatus s5.2.approved questions.length
        error := none
        progress := s5.2
        results := some s5.1
        summary := some summary
        errorsField := some s5.2.errors }

/-! ## Per-item outcome views of the oracles -/

/-- Whether the research worker reports success for the id. -/
def researchOk (env : Env) (q : Qid) : Bool :=
  match env.research q with
  | WRes.success _ => true
  | WRes.error _ => false

/-- Error-log entry stage 2 records for the id (`none` on success). -/
def researchErrEntry (env : Env) (q : Qid) : Option ErrEntry :=
  match env.research q with
  | WRes.success _ => none
  | WRes.error m => some { question_id := q, stage := "research", error := m }

/-- Generated item stage 3 produces for the id (`none` on failure). -/
def genItem (env : Env) (q : Qid) : Option GenData :=
  match env.generate q with
  | WRes.success payload => some (mkGen q payload)
  | WRes.error _ => none

/-- Whether the generation worker reports success for the id. -/
def genOk (env : Env) (q : Qid) : Bool :=
  match env.generate q with
  | WRes.success _ => true
  | WRes.error _ => false

/-- Error-log entry stage 3 records for the id (`none` on success). -/
def genErrEntry (env : Env) (q : Qid) : Option ErrEntry :=
  match env.generate q with
  | WRes.success _ => none
  | WRes.error m => some { question_id := q, stage := "generation", error := m }

/-- Review outcome stage 4 obtains for an item (worker applied to the
item and its ground-truth lookup result). -/
def reviewResult (env : Env) (d : GenData) : WRes Review :=
  env.review d (gtString env d.question_id)

/-- Whether the review worker reports success for the item. -/
def reviewOk (env : Env) (d : GenData) : Bool :=
  match reviewResult env d with
  | WRes.success _ => true
  | WRes.error _ => false

/-- Item stage 4 retains for final storage: review succeeded and the
approval filter passed (`none` otherwise). -/
def reviewRetain (env : Env) (auto_approve : Bool) (d : GenData) :
    Option GenData :=
  match reviewResult env d with
  | WRes.success r =>
    if shouldStoreVerdict auto_approve r.review_status then some (withReview d r)
    else none
  | WRes.error _ => none

/-- Error-log entry stage 4 records for the item (`none` when the review
worker returned a result, whatever the verdict). -/
def reviewErrEntry (env : Env) (d : GenData) : Option ErrEntry :=
  match reviewResult env d with
  | WRes.success _ => none
  | WRes.error m => some { question_id := d.question_id, stage := "review", error := m }

/-- Whether the final store succeeds for the item. -/
def storeOk (env : Env) (d : GenData) : Bool :=
  match env.store_final d with
  | WRes.success _ => true
  | WRes.error _ => false

/-- Result entry stage 5 appends for the item (`none` on failure). -/
def storeEntry (env : Env) (d : GenData) : Option ResultEntry :=
  match env.store_final d with
  | WRes.success generated_id =>
    some { question_id := d.question_id, status := "success"
           generated_id := generated_id, quality_score := d.quality_score
           review_status := d.review_status }
  | WRes.error _ => none

/-- Error-log entry stage 5 records for the item (`none` on success). -/
def storeErrEntry (env : Env) (d : GenData) : Option ErrEntry :=
  match env.store_final d with
  | WRes.success _ => none
  | WRes.error m => some { question_id := d.question_id, stage := "storage", error := m }

/-! ## Composite views of one run

The following definitions name the intermediate lists of a run of
`generate_synthetic_data` (the proofs below show the stages compute
exactly these), so that claims over whole runs can be stated compactly. -/

/-- The question list after the `max_questions` truncation. -/
def runQs (qs : List String) (maxq : Option Nat) : List String :=
  limitQuestions qs maxq

/-- The ids stage 1 yields for the run. -/
def runIds (env : Env) (qs : List String) (maxq : Option Nat) : List Qid :=
  (stage_1_store_questions env (runQs qs maxq)
    (Progress.init (runQs qs maxq).length)).1

/-- The ids that survive stage 2 (research). -/
def runRids (env : Env) (qs : List String) (maxq : Option Nat) : List Qid :=
  (runIds env qs maxq).filter (researchOk env)

/-- The items stage 3 generates. -/
def runGdata (env : Env) (qs : List String) (maxq : Option Nat) : List GenData :=
  (runRids env qs maxq).filterMap (genItem env)

/-- The items stage 4 retains for final storage. -/
def runRdata (env : Env) (qs : List String) (maxq : Option Nat)
    (auto : Bool) : List GenData :=
  (runGdata env qs maxq).filterMap (reviewRetain env auto)

/-- The result entries stage 5 accumulates. -/
def runResults (env : Env) (qs : List String) (maxq : Option Nat)
    (auto : Bool) : List ResultEntry :=
  (runRdata env qs maxq auto).filterMap (storeEntry env)

/-- The full error log accumulated over stages 2–5. -/
def runErrors (env : Env) (qs : List String) (maxq : Option Nat)
    (auto : Bool) : List ErrEntry :=
  (runIds env qs maxq).filterMap (researchErrEntry env)
    ++ (runRids env qs maxq).filterMap (genErrEntry env)
    ++ (runGdata env qs maxq).filterMap (reviewErrEntry env)
    ++ (runRdata env qs maxq auto).filterMap (storeErrEntry env)

/-- The final `approved` counter of a completed run: the number of
retained items whose final store succeeded. -/
def runApproved (env : Env) (qs : List String) (maxq : Option Nat)
    (auto : Bool) : Nat :=
  (runRdata env qs maxq auto).countP (storeOk env)

/-- The final progress tracker of a completed run. -/
def runFinalProgress (env : Env) (qs : List String) (maxq : Option Nat)
    (auto : Bool) : Progress :=
  { total_questions := (runQs qs maxq).length
    questions_added := (runIds env qs maxq).length
    researched := (runIds env qs maxq).countP (researchOk env)
    generated := (runRids env qs maxq).countP (genOk env)
    reviewed := (runGdata env qs maxq).countP (reviewOk env)
    approved := runApproved env qs maxq auto
    failed :=
      (runIds env qs maxq).countP (fun q => !researchOk env q)
        + (runRids env qs maxq).countP (fun q => !genOk env q)
        + (runGdata env qs maxq).countP (fun d => !reviewOk env d)
        + (runRdata env qs maxq auto).countP (fun d => !storeOk env d)
    errors := runErrors env qs maxq auto }

/-- The `RunOutput` of a completed (non-aborted, non-exception) run. -/
def runCompletedOutput (env : Env) (qs : List String) (maxq : Option Nat)
    (auto : Bool) : RunOutput :=
  { status := finalStatus (runApproved env qs maxq auto) (runQs qs maxq).length
    error := none
    progress := runFinalProgress env qs maxq auto
    results := some (runResults env qs maxq auto)
    summary := some
      { total_questions := (runQs qs maxq).length
        researched := (runFinalProgress env qs maxq auto).researched
        generated := (runFinalProgress env qs maxq auto).generated
        reviewed := (runFinalProgress env qs maxq auto).reviewed
        approved := runApproved env qs maxq auto
        rejected := ((runFinalProgress env qs maxq auto).reviewed : Int)
          - (runApproved env qs maxq auto : Int)
        failed := (runFinalProgress env qs maxq auto).failed
        success_rate :=
          if (runQs qs maxq).length = 0 then 0
          else (runApproved env qs maxq auto : ℚ) / ((runQs qs maxq).length : ℚ) * 100 }
    errorsField := some (runErrors env qs maxq auto) }

/-- Whether the run's review policy (not an error) drops the item with
this id: it was generated, its review succeeded, and the approval filter
rejected it (`rejected`, or `needs_revision` without `auto_approve`). -/
def reviewFilteredOut (env : Env) (auto : Bool) (q : Qid) : Bool :=
  match genItem env q with
  | some d =>
    match reviewResult env d with
    | WRes.success r => !shouldStoreVerdict auto r.review_status
    | WRes.error _ => false
  | none => false

/-! ## Per-item worker with its retry wrapper
(`_research_single_question` and its two siblings) -/

/-- Body of `_research_single_question` for one attempt: run the
composite collaborator operation `_do_research` through the shared
research circuit breaker, and convert both a raised exception and a
`CircuitBreakerOpenError` into an error result dictionary — the body
returns normally on every path (`try ... except CircuitBreakerOpenError
... except Exception ...` with both handlers returning a dictionary).
`collab` is the behaviour of `_do_research` for this invocation. -/
def researchWorkerBody (b : CircuitBreaker) (now : ℚ)
    (collab : CallOutcome Unit) : WRes Unit × CircuitBreaker :=
  match b.call now collab with
  | (CallResult.ok v, b') => (WRes.success v, b')
  | (CallResult.raised e, b') => (WRes.error e, b')
  | (CallResult.circuitOpenError, b') =>
    (WRes.error "Circuit breaker open", b')

/-- Model of the decorated `_research_single_question`: the
`retry_with_backoff(max_attempts=3, ...)` wrapper around the worker
body, with the shared circuit breaker state threaded through the
attempts and `collab k` the behaviour of the collaborator operation on
the `k`-th attempt.  Every attempt returns `AttemptOutcome.ok` because
the body catches every exception, so the wrapper's `except retry_on`
arm can never fire. -/
def research_single_question (b : CircuitBreaker) (now : ℚ)
    (collab : Nat → CallOutcome Unit) : RetryRun (WRes Unit) × CircuitBreaker :=
  retryGoSt workerRetryCfg
    (fun k st =>
      let r := researchWorkerBody st now (collab k)
      (AttemptOutcome.ok r.1, r.2))
    (List.range workerRetryCfg.max_attempts) b

/-! ## Concrete oracle environments (for witnesses and counterexamples) -/

/-- Environment in which every collaborator succeeds, stage 1 stores one
id per question (ids 1, 2, …), every review verdict is `approved` — and
the stage-4 ground-truth lookup fails with an error dictionary. -/
def gtFailEnv : Env :=
  { stage1 := fun qs => WRes.success (List.range' 1 qs.length)
    research := fun _ => WRes.success ()
    generate := fun _ => WRes.success "generated"
    review := fun _ _ =>
      WRes.success { review_status := "approved", quality_score := 9
                     reviewer_notes := "ok" }
    get_question := fun _ => GtLookup.errorDict "database lookup failed"
    store_final := fun _ => WRes.success 7 }

/-- Environment in which every collaborator succeeds end to end. -/
def allOkEnv : Env :=
  { gtFailEnv with get_question := fun _ => GtLookup.found "context" }

/-- Environment in which research fails for id 2 and succeeds elsewhere. -/
def research2FailsEnv : Env :=
  { allOkEnv with
      research := fun q => if q = 2 then WRes.error "API down" else WRes.success () }

/-- Environment in which every research call fails. -/
def researchAllFailEnv : Env :=
  { allOkEnv with research := fun _ => WRes.error "research exploded" }

/-- Environment in which every generation call fails. -/
def generateAllFailEnv : Env :=
  { allOkEnv with generate := fun _ => WRes.error "generation exploded" }

/-- Environment in which stage 1 stores nothing. -/
def stage1FailEnv : Env :=
  { allOkEnv with stage1 := fun _ => WRes.error "db down" }

/-- Environment with mixed review verdicts keyed by question id:
id 1 approved, id 2 needs_revision, id 3 rejected, id 4 review error. -/
def mixedReviewEnv : Env :=
  { allOkEnv with
      review := fun d _ =>
        if d.question_id = 1 then
          WRes.success { review_status := "approved", quality_score := 9
                         reviewer_notes := "" }
        else if d.question_id = 2 then
          WRes.success { review_status := "needs_revision", quality_score := 5
                         reviewer_notes := "" }
        else if d.question_id = 3 then
          WRes.success { review_status := "rejected", quality_score := 1
                         reviewer_notes := "" }
        else WRes.error "review exploded" }

/-- Breaker state after three consecutive failing calls (at times
`t1, t2, t3` with exceptions `e1, e2, e3`) on a fresh breaker with
`failure_threshold = 3` and the given recovery timeout. -/
def failThrice (rt t1 t2 t3 : ℚ) (e1 e2 e3 : String) : CircuitBreaker :=
  ((((CircuitBreaker.init 3 rt).call t1
      (CallOutcome.fail e1 : CallOutcome Nat)).2.call t2
      (CallOutcome.fail e2 : CallOutcome Nat)).2.call t3
      (CallOutcome.fail e3 : CallOutcome Nat)).2

/-! ## Theorems -/

/-! ## Batching laws -/

theorem batchesAux_fuel (B : Nat) (hB : 0 < B) :
    ∀ (n m : Nat) (l : List α), l.length ≤ n → l.length ≤ m →
      batchesAux B n l = batchesAux B m l := by
  intro n
  induction n with
  | zero =>
    intro m l h1 _
    have : l = [] := List.length_eq_zero.mp (Nat.le_zero.mp h1)
    subst this
    cases m <;> rfl
  | succ k ih =>
    intro m l h1 h2
    cases l with
    | nil => cases m <;> rfl
    | cons a t =>
      cases m with
      | zero => simp at h2
      | succ m' =>
        simp only [batchesAux]
        congr 1
        apply ih
        · have : ((a :: t).drop B).length = (a :: t).length - B :=
            List.length_drop B (a :: t)
          simp only [List.length_cons] at h1 this ⊢
          omega
        · have : ((a :: t).drop B).length = (a :: t).length - B :=
            List.length_drop B (a :: t)
          simp only [List.length_cons] at h2 this ⊢
          omega

theorem batches_nil (B : Nat) : batches B ([] : List α) = [] := by
  unfold batches
  split <;> rfl

theorem batches_cons (B : Nat) (hB : 0 < B) (l : List α) (hl : l ≠ []) :
    batches B l = l.take B :: batches B (l.drop B) := by
  unfold batches
  rw [if_neg (Nat.pos_iff_ne_zero.mp hB), if_neg (Nat.pos_iff_ne_zero.mp hB)]
  cases l with
  | nil => exact absurd rfl hl
  | cons a t =>
    simp only [List.length_cons, batchesAux]
    congr 1
    apply batchesAux_fuel B hB
    · have : ((a :: t).drop B).length = (a :: t).length - B :=
        List.length_drop B (a :: t)
      simp only [List.length_cons] at this ⊢
      omega
    · exact le_rfl

theorem batches_join_fuel (B : Nat) (hB : 0 < B) :
    ∀ (n : Nat) (l : List α), l.length ≤ n → (batches B l).flatten = l := by
  intro n
  induction n with
  | zero =>
    intro l hl
    have : l = [] := List.length_eq_zero.mp (Nat.le_zero.mp hl)
    subst this; simp [batches_nil]
  | succ n ih =>
    intro l hl
    rcases eq_or_ne l [] with rfl | hne
    · simp [batches_nil]
    · rw [batches_cons B hB l hne]
      simp only [List.flatten_cons]
      rw [ih (l.drop B) ?_]
      · exact List.take_append_drop B l
      · have hpos : 0 < l.length := List.length_pos.mpr hne
        have : (l.drop B).length = l.length - B := List.length_drop B l
        omega

/-- Concatenating the batch groups gives back the input list. -/
theorem batches_join (B : Nat) (hB : 0 < B) (l : List α) :
    (batches B l).flatten = l :=
  batches_join_fuel B hB l.length l le_rfl

theorem length_batches_fuel (B : Nat) (hB : 0 < B) :
    ∀ (n : Nat) (l : List α), l.length ≤ n →
      (batches B l).length = (l.length + B - 1) / B := by
  intro n
  induction n with
  | zero =>
    intro l hl
    have : l = [] := List.length_eq_zero.mp (Nat.le_zero.mp hl)
    subst this
    simp [batches_nil, Nat.div_eq_of_lt (by omega : B - 1 < B)]
  | succ n ih =>
    intro l hl
    rcases eq_or_ne l [] with rfl | hne
    · simp [batches_nil, Nat.div_eq_of_lt (by omega : B - 1 < B)]
    · rw [batches_cons B hB l hne]
      have hpos : 0 < l.length := List.length_pos.mpr hne
      have hdrop : (l.drop B).length = l.length - B := List.length_drop B l
      rw [List.length_cons, ih (l.drop B) (by omega)]
      rcases Nat.lt_or_ge (l.length) (B + 1) with hsmall | hbig
      · -- a single group: `l.length ≤ B`
        have h1 : l.length - B = 0 := by omega
        rw [hdrop, h1, Nat.zero_add]
        have h2 : (B - 1) / B = 0 := Nat.div_eq_of_lt (by omega)
        have h3 : (l.length + B - 1) / B = 1 := by
          have : l.length + B - 1 = (l.length - 1) + B := by omega
          rw [this, Nat.add_div_right _ hB, Nat.div_eq_of_lt (by omega)]
        omega
      · -- at least two groups
        have h4 : l.length - B + B - 1 + B = l.length + B - 1 := by omega
        rw [hdrop, ← h4, Nat.add_div_right _ hB]

/-- Number of batch groups is the ceiling `⌈|l| / B⌉ = (|l| + B - 1) / B`. -/
theorem length_batches (B : Nat) (hB : 0 < B) (l : List α) :
    (batches B l).length = (l.length + B - 1) / B :=
  length_batches_fuel B hB l.length l le_rfl

theorem mem_batches_length_le_fuel (B : Nat) (hB : 0 < B) :
    ∀ (n : Nat) (l : List α), l.length ≤ n →
      ∀ g ∈ batches B l, g.length ≤ B := by
  intro n
  induction n with
  | zero =>
    intro l hl
    have : l = [] := List.length_eq_zero.mp (Nat.le_zero.mp hl)
    subst this; simp [batches_nil]
  | succ n ih =>
    intro l hl g hg
    rcases eq_or_ne l [] with rfl | hne
    · simp [batches_nil] at hg
    · rw [batches_cons B hB l hne] at hg
      rcases List.mem_cons.mp hg with rfl | hg'
      · exact List.length_take_le B l
      · have hpos : 0 < l.length := List.length_pos.mpr hne
        have hdrop : (l.drop B).length = l.length - B := List.length_drop B l
        exact ih (l.drop B) (by omega) g hg'

/-- Every batch group has at most `B` elements. -/
theorem mem_batches_length_le (B : Nat) (hB : 0 < B) (l : List α) :
    ∀ g ∈ batches B l, g.length ≤ B :=
  mem_batches_length_le_fuel B hB l.length l le_rfl

/-- Folding the per-item step over the batch groups (as the batch
executors do) is folding it over the input list. -/
theorem foldl_batches (B : Nat) (hB : 0 < B) (l : List α)
    (g : β → α → β) (init : β) :
    (batches B l).foldl (fun acc batch => batch.foldl g acc) init =
      l.foldl g init := by
  conv_rhs => rw [← batches_join B hB l]
  rw [List.foldl_flatten]

/-! ## Progress update equations -/

theorem update_questions_added (p : Progress) (n : Nat) :
    p.update "questions_added" n = { p with questions_added := p.questions_added + n } := rfl

theorem update_researched (p : Progress) (n : Nat) :
    p.update "researched" n = { p with researched := p.researched + n } := rfl

theorem update_generated (p : Progress) (n : Nat) :
    p.update "generated" n = { p with generated := p.generated + n } := rfl

theorem update_reviewed (p : Progress) (n : Nat) :
    p.update "reviewed" n = { p with reviewed := p.reviewed + n } := rfl

theorem update_approved (p : Progress) (n : Nat) :
    p.update "approved" n = { p with approved := p.approved + n } := rfl

theorem add_error_eq (p : Progress) (q : Qid) (st e : String) :
    p.add_error q st e =
      { p with failed := p.failed + 1
               errors := p.errors ++ [{ question_id := q, stage := st, error := e }] } := rfl

/-! ## Stage characterizations -/

theorem research_foldl (env : Env) (l : List Qid) (acc : List Qid × Progress) :
    l.foldl (researchStep env) acc =
      (acc.1 ++ l.filter (researchOk env),
       { acc.2 with
           researched := acc.2.researched + l.countP (researchOk env)
           failed := acc.2.failed + l.countP (fun q => !researchOk env q)
           errors := acc.2.errors ++ l.filterMap (researchErrEntry env) }) := by
  induction l generalizing acc with
  | nil => simp
  | cons q rest ih =>
    simp only [List.foldl_cons]
    rw [ih]
    rcases acc with ⟨out, p⟩
    cases h : env.research q with
    | success u =>
      simp [researchStep, researchOk, researchErrEntry, h, update_researched,
        List.filter_cons, List.countP_cons, Progress.mk.injEq, List.append_assoc]
      omega
    | error m =>
      simp [researchStep, researchOk, researchErrEntry, h, add_error_eq,
        List.filter_cons, List.countP_cons, Progress.mk.injEq, List.append_assoc]
      omega

theorem generate_foldl (env : Env) (l : List Qid) (acc : List GenData × Progress) :
    l.foldl (generateStep env) acc =
      (acc.1 ++ l.filterMap (genItem env),
       { acc.2 with
           generated := acc.2.generated + l.countP (genOk env)
           failed := acc.2.failed + l.countP (fun q => !genOk env q)
           errors := acc.2.errors ++ l.filterMap (genErrEntry env) }) := by
  induction l generalizing acc with
  | nil => simp
  | cons q rest ih =>
    simp only [List.foldl_cons]
    rw [ih]
    rcases acc with ⟨out, p⟩
    cases h : env.generate q with
    | success payload =>
      simp [generateStep, genOk, genItem, genErrEntry, h, update_generated,
        List.filterMap_cons, List.countP_cons, Progress.mk.injEq, List.append_assoc]
      omega
    | error m =>
      simp [generateStep, genOk, genItem, genErrEntry, h, add_error_eq,
        List.filterMap_cons, List.countP_cons, Progress.mk.injEq, List.append_assoc]
      omega

theorem review_foldl (env : Env) (auto_approve : Bool) (l : List GenData)
    (acc : List GenData × Progress) :
    l.foldl (reviewStep env auto_approve) acc =
      (acc.1 ++ l.filterMap (reviewRetain env auto_approve),
       { acc.2 with
           reviewed := acc.2.reviewed + l.countP (reviewOk env)
           failed := acc.2.failed + l.countP (fun d => !reviewOk env d)
           errors := acc.2.errors ++ l.filterMap (reviewErrEntry env) }) := by
  induction l generalizing acc with
  | nil => simp
  | cons d rest ih =>
    simp only [List.foldl_cons]
    rw [ih]
    rcases acc with ⟨out, p⟩
    cases h : env.review d (gtString env d.question_id) with
    | success r =>
      cases hs : shouldStoreVerdict auto_approve r.review_status with
      | true =>
        simp [reviewStep, reviewOk, reviewRetain, reviewErrEntry, reviewResult, h, hs,
          update_reviewed, List.filterMap_cons, List.countP_cons, Progress.mk.injEq,
          List.append_assoc]
        omega
      | false =>
        simp [reviewStep, reviewOk, reviewRetain, reviewErrEntry, reviewResult, h, hs,
          update_reviewed, List.filterMap_cons, List.countP_cons, Progress.mk.injEq,
          List.append_assoc]
        omega
    | error m =>
      simp [reviewStep, reviewOk, reviewRetain, reviewErrEntry, reviewResult, h,
        add_error_eq, List.filterMap_cons, List.countP_cons, Progress.mk.injEq,
        List.append_assoc]
      omega

theorem store_foldl (env : Env) (l : List GenData)
    (acc : List ResultEntry × Progress) :
    l.foldl (storeStep env) acc =
      (acc.1 ++ l.filterMap (storeEntry env),
       { acc.2 with
           approved := acc.2.approved + l.countP (storeOk env)
           failed := acc.2.failed + l.countP (fun d => !storeOk env d)
           errors := acc.2.errors ++ l.filterMap (storeErrEntry env) }) := by
  induction l generalizing acc with
  | nil => simp
  | cons d rest ih =>
    simp only [List.foldl_cons]
    rw [ih]
    rcases acc with ⟨out, p⟩
    cases h : env.store_final d with
    | success gid =>
      simp [storeStep, storeOk, storeEntry, storeErrEntry, h, update_approved,
        List.filterMap_cons, List.countP_cons, Progress.mk.injEq, List.append_assoc]
      omega
    | error m =>
      simp [storeStep, storeOk, storeEntry, storeErrEntry, h, add_error_eq,
        List.filterMap_cons, List.countP_cons, Progress.mk.injEq, List.append_assoc]
      omega

/-- Batched stage 2 is the per-item fold over the whole id list. -/
theorem stage_2_spec (env : Env) (ids : List Qid) (prog : Progress)
    (B : Nat) (hB : 0 < B) :
    stage_2_research_questions env ids prog B =
      (ids.filter (researchOk env),
       { prog with
           researched := prog.researched + ids.countP (researchOk env)
           failed := prog.failed + ids.countP (fun q => !researchOk env q)
           errors := prog.errors ++ ids.filterMap (researchErrEntry env) }) := by
  unfold stage_2_research_questions
  rw [foldl_batches B hB, research_foldl]
  simp

/-- Batched stage 3 is the per-item fold over the whole id list. -/
theorem stage_3_spec (env : Env) (ids : List Qid) (prog : Progress)
    (B : Nat) (hB : 0 < B) :
    stage_3_generate_data env ids prog B =
      (ids.filterMap (genItem env),
       { prog with
           generated := prog.generated + ids.countP (genOk env)
           failed := prog.failed + ids.countP (fun q => !genOk env q)
           errors := prog.errors ++ ids.filterMap (genErrEntry env) }) := by
  unfold stage_3_generate_data
  rw [foldl_batches B hB, generate_foldl]
  simp

/-- Batched stage 4 is the per-item fold over the whole item list. -/
theorem stage_4_spec (env : Env) (auto_approve : Bool) (l : List GenData)
    (prog : Progress) (B : Nat) (hB : 0 < B) :
    stage_4_review_data env auto_approve l prog B =
      (l.filterMap (reviewRetain env auto_approve),
       { prog with
           reviewed := prog.reviewed + l.countP (reviewOk env)
           failed := prog.failed + l.countP (fun d => !reviewOk env d)
           errors := prog.errors ++ l.filterMap (reviewErrEntry env) }) := by
  unfold stage_4_review_data
  rw [foldl_batches B hB, review_foldl]
  simp

/-- Stage 5's sequential loop, in closed form. -/
theorem stage_5_spec (env : Env) (l : List GenData) (prog : Progress) :
    stage_5_final_storage env l prog =
      (l.filterMap (storeEntry env),
       { prog with
           approved := prog.approved + l.countP (storeOk env)
           failed := prog.failed + l.countP (fun d => !storeOk env d)
           errors := prog.errors ++ l.filterMap (storeErrEntry env) }) := by
  unfold stage_5_final_storage
  rw [store_foldl]
  simp

/-- Stage 1 returns its ids and bumps `questions_added` by their number
(an error outcome yields `[]`, bumping by zero). -/
theorem stage_1_spec (env : Env) (qs : List String) (prog : Progress) :
    stage_1_store_questions env qs prog =
      ((stage_1_store_questions env qs prog).1,
       { prog with questions_added :=
           prog.questions_added + (stage_1_store_questions env qs prog).1.length }) := by
  cases h : env.stage1 qs <;>
    simp [stage_1_store_questions, h, update_questions_added]

theorem batches_zero (l : List α) : batches 0 l = [] := rfl

/-- With `batch_size = 0` the model's stage 2 processes nothing, the
second abort check fires (in Python, `range(0, n, 0)` raises `ValueError`
and the top-level handler returns an error result), and in either case
the run produces no summary. -/
theorem summary_none_of_B0 (env : Env) (qs : List String) (tt : String)
    (maxq : Option Nat) (auto : Bool) :
    (generate_synthetic_data env qs tt maxq auto 0).summary = none := by
  simp only [generate_synthetic_data, stage_2_research_questions, batches_zero,
    List.foldl_nil]
  split
  · rfl
  · simp

/-- A run whose stage 1 yields no ids returns the first abort result. -/
theorem run_abort1 (env : Env) (qs : List String) (tt : String)
    (maxq : Option Nat) (auto : Bool) (B : Nat)
    (h : runIds env qs maxq = []) :
    generate_synthetic_data env qs tt maxq auto B =
      { status := "error", error := some "Failed to add questions to database"
        progress := (stage_1_store_questions env (runQs qs maxq)
          (Progress.init (runQs qs maxq).length)).2
        results := none, summary := none, errorsField := none } := by
  simp only [generate_synthetic_data]
  rw [if_pos]
  · rfl
  · simpa [List.isEmpty_iff] using h

/-- A run whose stage 2 yields no researched ids (while stage 1 yielded
some) returns the second abort result. -/
theorem run_abort2 (env : Env) (qs : List String) (tt : String)
    (maxq : Option Nat) (auto : Bool) (B : Nat)
    (h1 : runIds env qs maxq ≠ [])
    (h2 : (stage_2_research_questions env (runIds env qs maxq)
      (stage_1_store_questions env (runQs qs maxq)
        (Progress.init (runQs qs maxq).length)).2 B).1 = []) :
    generate_synthetic_data env qs tt maxq auto B =
      { status := "error", error := some "No questions were successfully researched"
        progress := (stage_2_research_questions env (runIds env qs maxq)
          (stage_1_store_questions env (runQs qs maxq)
            (Progress.init (runQs qs maxq).length)).2 B).2
        results := none, summary := none, errorsField := none } := by
  simp only [generate_synthetic_data]
  rw [if_neg, if_pos]
  · rfl
  · simpa [List.isEmpty_iff] using h2
  · simpa [List.isEmpty_iff] using h1

/-- A run that passes both abort checks but names an invalid training
type reaches `TrainingType(training_type.lower())`, whose `ValueError`
the top-level handler converts into an error result with no summary. -/
theorem run_invalid_tt (env : Env) (qs : List String) (tt : String)
    (maxq : Option Nat) (auto : Bool) (B : Nat)
    (h1 : runIds env qs maxq ≠ [])
    (h2 : (stage_2_research_questions env (runIds env qs maxq)
      (stage_1_store_questions env (runQs qs maxq)
        (Progress.init (runQs qs maxq).length)).2 B).1 ≠ [])
    (h3 : isValidTrainingType tt = false) :
    (generate_synthetic_data env qs tt maxq auto B).summary = none := by
  have c1 : ¬((stage_1_store_questions env (limitQuestions qs maxq)
      (Progress.init (limitQuestions qs maxq).length)).1.isEmpty = true) := by
    simpa [List.isEmpty_iff, runIds, runQs] using h1
  have c2 : ¬((stage_2_research_questions env
      (stage_1_store_questions env (limitQuestions qs maxq)
        (Progress.init (limitQuestions qs maxq).length)).1
      (stage_1_store_questions env (limitQuestions qs maxq)
        (Progress.init (limitQuestions qs maxq).length)).2 B).1.isEmpty = true) := by
    simpa [List.isEmpty_iff, runIds, runQs] using h2
  simp only [generate_synthetic_data]
  rw [if_neg c1, if_neg c2, if_pos h3]

/-- Characterization of a completed run: when stage 1 and stage 2 yield
nonempty outputs and the training type is valid, the run output is
exactly the composite view `runCompletedOutput`. -/
theorem run_completed (env : Env) (qs : List String) (tt : String)
    (maxq : Option Nat) (auto : Bool) (B : Nat) (hB : 0 < B)
    (h1 : runIds env qs maxq ≠ [])
    (h2 : runRids env qs maxq ≠ [])
    (h3 : isValidTrainingType tt = true) :
    generate_synthetic_data env qs tt maxq auto B =
      runCompletedOutput env qs maxq auto := by
  have hq' : limitQuestions qs maxq = runQs qs maxq := rfl
  simp only [generate_synthetic_data, hq']
  rw [stage_1_spec env (runQs qs maxq) (Progress.init (runQs qs maxq).length)]
  simp only []
  rw [if_neg (by simpa [List.isEmpty_iff, runIds] using h1)]
  rw [stage_2_spec env _ _ B hB]
  simp only []
  rw [if_neg (by simpa [List.isEmpty_iff, runRids, runIds] using h2)]
  rw [if_neg (by rw [h3]; simp)]
  rw [stage_3_spec env _ _ B hB]
  simp only []
  rw [stage_4_spec env auto _ _ B hB]
  simp only []
  rw [stage_5_spec env _ _]
  simp [runCompletedOutput, runFinalProgress, runApproved, runResults,
    runErrors, runRdata, runGdata, runRids, runIds, runQs, Progress.init,
    finalStatus, List.append_assoc]
  rw [Nat.zero_add]

/-! ## Preservation helpers -/

theorem total_foldl_preserved {α β : Type}
    (step : (List β × Progress) → α → (List β × Progress))
    (hstep : ∀ acc x, (step acc x).2.total_questions = acc.2.total_questions) :
    ∀ (l : List α) (acc : List β × Progress),
      (l.foldl step acc).2.total_questions = acc.2.total_questions := by
  intro l
  induction l with
  | nil => intro acc; rfl
  | cons x t ih => intro acc; rw [List.foldl_cons, ih, hstep]

theorem total_batched_preserved {α β : Type}
    (step : (List β × Progress) → α → (List β × Progress))
    (hstep : ∀ acc x, (step acc x).2.total_questions = acc.2.total_questions) :
    ∀ (bs : List (List α)) (acc : List β × Progress),
      ((bs.foldl (fun acc batch => batch.foldl step acc) acc).2.total_questions)
        = acc.2.total_questions := by
  intro bs
  induction bs with
  | nil => intro acc; rfl
  | cons b t ih =>
    intro acc; rw [List.foldl_cons, ih, total_foldl_preserved step hstep]

theorem researchStep_total (env : Env) (acc : List Qid × Progress) (q : Qid) :
    (researchStep env acc q).2.total_questions = acc.2.total_questions := by
  cases h : env.research q <;>
    simp [researchStep, h, update_researched, add_error_eq]

theorem generateStep_total (env : Env) (acc : List GenData × Progress) (q : Qid) :
    (generateStep env acc q).2.total_questions = acc.2.total_questions := by
  cases h : env.generate q <;>
    simp [generateStep, h, update_generated, add_error_eq]

theorem reviewStep_total (env : Env) (auto : Bool)
    (acc : List GenData × Progress) (d : GenData) :
    (reviewStep env auto acc d).2.total_questions = acc.2.total_questions := by
  cases h : env.review d (gtString env d.question_id) <;>
    simp [reviewStep, h, update_reviewed, add_error_eq]

theorem storeStep_total (env : Env) (acc : List ResultEntry × Progress) (d : GenData) :
    (storeStep env acc d).2.total_questions = acc.2.total_questions := by
  cases h : env.store_final d <;>
    simp [storeStep, h, update_approved, add_error_eq]

theorem stage_1_total (env : Env) (qs : List String) (prog : Progress) :
    (stage_1_store_questions env qs prog).2.total_questions = prog.total_questions := by
  cases h : env.stage1 qs <;>
    simp [stage_1_store_questions, h, update_questions_added]

theorem stage_2_total (env : Env) (ids : List Qid) (prog : Progress) (B : Nat) :
    (stage_2_research_questions env ids prog B).2.total_questions
      = prog.total_questions :=
  total_batched_preserved _ (researchStep_total env) _ _

theorem stage_3_total (env : Env) (ids : List Qid) (prog : Progress) (B : Nat) :
    (stage_3_generate_data env ids prog B).2.total_questions
      = prog.total_questions :=
  total_batched_preserved _ (generateStep_total env) _ _

theorem stage_4_total (env : Env) (auto : Bool) (l : List GenData)
    (prog : Progress) (B : Nat) :
    (stage_4_review_data env auto l prog B).2.total_questions
      = prog.total_questions :=
  total_batched_preserved _ (reviewStep_total env auto) _ _

theorem stage_5_total (env : Env) (l : List GenData) (prog : Progress) :
    (stage_5_final_storage env l prog).2.total_questions
      = prog.total_questions :=
  total_foldl_preserved _ (storeStep_total env) _ _

/-- Every branch of the orchestrator reports the progress tracker created
with `total_questions = len(questions)` after truncation. -/
theorem run_total (env : Env) (qs : List String) (tt : String)
    (maxq : Option Nat) (auto : Bool) (B : Nat) :
    (generate_synthetic_data env qs tt maxq auto B).progress.total_questions
      = (limitQuestions qs maxq).length := by
  simp only [generate_synthetic_data]
  split
  · rw [stage_1_total]; rfl
  · split
    · rw [stage_2_total, stage_1_total]; rfl
    · split
      · rw [stage_2_total, stage_1_total]; rfl
      · rw [stage_5_total, stage_4_total, stage_3_total, stage_2_total,
          stage_1_total]; rfl

/-! ## Counting helpers -/

theorem research_count_split (env : Env) (l : List Qid) :
    l.countP (researchOk env) + (l.filterMap (researchErrEntry env)).length
      = l.length := by
  induction l with
  | nil => rfl
  | cons q t ih =>
    cases h : env.research q <;>
      simp [List.countP_cons, List.filterMap_cons, researchOk, researchErrEntry, h] <;>
      omega

theorem sum_count_flatten {α : Type} [DecidableEq α] (q : α) :
    ∀ L : List (List α), (L.map (fun g => g.count q)).sum = L.flatten.count q := by
  intro L
  induction L with
  | nil => rfl
  | cons g t ih => simp [List.count_append, ih]

/-! ## Claim C5 -/

/-- C5: for an input list of `N` ids and `batch_size = B > 0`, the
executors of stages 2 and 3 split the input with `batches` into
`⌈N/B⌉` consecutive groups of at most `B` items whose concatenation is
the input list, each item occurring across the groups exactly as often
as in the input; and stage 2 hands every item to its worker exactly
once — each input item contributes exactly one aggregated outcome
(a `researched` increment or one new error-log entry). -/
theorem c5_batch_partition (l : List Qid) (B : Nat) (hB : 0 < B) :
    (batches B l).flatten = l ∧
    (batches B l).length = (l.length + B - 1) / B ∧
    (∀ g ∈ batches B l, g.length ≤ B) ∧
    (∀ q : Qid, ((batches B l).map (fun g => g.count q)).sum = l.count q) ∧
    (∀ (env : Env) (prog : Progress),
       (stage_2_research_questions env l prog B).2.researched
         + (stage_2_research_questions env l prog B).2.errors.length
         = prog.researched + prog.errors.length + l.length) := by
  refine ⟨batches_join B hB l, length_batches B hB l,
    mem_batches_length_le B hB l, ?_, ?_⟩
  · intro q
    rw [sum_count_flatten, batches_join B hB l]
  · intro env prog
    rw [stage_2_spec env l prog B hB]
    have := research_count_split env l
    simp only [List.length_append]
    omega

/-- Witness for C5 at `l = [0, …, 11]`, `B = 5`. -/
theorem c5_batch_partition_witness :
    (batches 5 (List.range 12)).flatten = List.range 12 ∧
    (batches 5 (List.range 12)).length = 3 := by
  obtain ⟨hf, hl, -, -, -⟩ := c5_batch_partition (List.range 12) 5 (by decide)
  exact ⟨hf, hl.trans (by decide)⟩

/-! ## Claim C10 -/

/-- C10: `max_questions = 0` is falsy, so `if max_questions:` skips the
truncation — the run with `max_questions = 0` is identical to the run
with `max_questions = None`, processes all input questions and sets
`total_questions` to the full input length; the truncation
`questions[:max_questions]` happens only for a truthy (nonzero)
`max_questions`. -/
theorem c10_max_questions_zero :
    (∀ qs : List String, limitQuestions qs (some 0) = qs) ∧
    (∀ qs : List String, limitQuestions qs none = qs) ∧
    (∀ (qs : List String) (m : Nat), m ≠ 0 →
       limitQuestions qs (some m) = qs.take m) ∧
    (∀ (env : Env) (qs : List String) (tt : String) (auto : Bool) (B : Nat),
       generate_synthetic_data env qs tt (some 0) auto B =
         generate_synthetic_data env qs tt none auto B) ∧
    (∀ (env : Env) (qs : List String) (tt : String) (auto : Bool) (B : Nat),
       (generate_synthetic_data env qs tt (some 0) auto B).progress.total_questions
         = qs.length) := by
  refine ⟨fun qs => rfl, fun qs => rfl,
    fun qs m hm => by simp [limitQuestions, hm],
    fun env qs tt auto B => rfl,
    fun env qs tt auto B => ?_⟩
  rw [run_total]; rfl

/-- Witness for C10 at a three-question list. -/
theorem c10_max_questions_zero_witness :
    limitQuestions ["a", "b", "c"] (some 0) = ["a", "b", "c"] ∧
    limitQuestions ["a", "b", "c"] (some 2) = ["a", "b"] := by
  obtain ⟨h1, -, h3, -, -⟩ := c10_max_questions_zero
  exact ⟨h1 ["a", "b", "c"], (h3 ["a", "b", "c"] 2 (by decide)).trans (by decide)⟩

/-! ## Claim C2 -/

/-- C2: an item reaching review with a successful review result is
retained for final storage iff its verdict is `approved`, or it is
`needs_revision` and the caller passed `auto_approve`; `rejected` items
are never retained; review-filtered items still bump the `reviewed`
counter (which counts every review success) and add no error-log entry
(entries come only from review errors). -/
theorem c2_approval_gating (env : Env) (auto_approve : Bool)
    (l : List GenData) (prog : Progress) (B : Nat) (hB : 0 < B) :
    ((stage_4_review_data env auto_approve l prog B).1 =
        l.filterMap (reviewRetain env auto_approve)) ∧
    (∀ d r, reviewResult env d = WRes.success r →
        ((reviewRetain env auto_approve d).isSome = true ↔
          (r.review_status = "approved" ∨
            (auto_approve = true ∧ r.review_status = "needs_revision")))) ∧
    (∀ d r, reviewResult env d = WRes.success r →
        r.review_status = "rejected" →
        reviewRetain env auto_approve d = none) ∧
    ((stage_4_review_data env auto_approve l prog B).2.reviewed =
        prog.reviewed + l.countP (reviewOk env)) ∧
    ((stage_4_review_data env auto_approve l prog B).2.errors =
        prog.errors ++ l.filterMap (reviewErrEntry env)) ∧
    (∀ d, reviewOk env d = true → reviewErrEntry env d = none) := by
  refine ⟨?_, ?_, ?_, ?_, ?_, ?_⟩
  · rw [stage_4_spec env auto_approve l prog B hB]
  · intro d r h
    simp only [reviewRetain, h]
    by_cases h1 : r.review_status = "approved" <;>
      by_cases h2 : r.review_status = "needs_revision" <;>
      cases auto_approve <;>
      simp [shouldStoreVerdict, h1, h2]
  · intro d r h hrej
    simp only [reviewRetain, h, hrej]
    cases auto_approve <;> simp [shouldStoreVerdict]
  · rw [stage_4_spec env auto_approve l prog B hB]
  · rw [stage_4_spec env auto_approve l prog B hB]
  · intro d hok
    unfold reviewErrEntry
    unfold reviewOk at hok
    cases h : reviewResult env d with
    | success r => rfl
    | error m => rw [h] at hok; simp at hok

/-- Witness for C2: four generated items whose reviews come back
approved / needs_revision / rejected / error; without auto_approve only
the approved one is retained, three reviews succeed, one error entry. -/
theorem c2_approval_gating_witness :
    (stage_4_review_data mixedReviewEnv false
      [{ question_id := 1, payload := "p1", quality_score := none
         review_status := none, reviewer_notes := none },
       { question_id := 2, payload := "p2", quality_score := none
         review_status := none, reviewer_notes := none },
       { question_id := 3, payload := "p3", quality_score := none
         review_status := none, reviewer_notes := none },
       { question_id := 4, payload := "p4", quality_score := none
         review_status := none, reviewer_notes := none }]
      (Progress.init 4) 10).1.length = 1 ∧
    (stage_4_review_data mixedReviewEnv false
      [{ question_id := 1, payload := "p1", quality_score := none
         review_status := none, reviewer_notes := none },
       { question_id := 2, payload := "p2", quality_score := none
         review_status := none, reviewer_notes := none },
       { question_id := 3, payload := "p3", quality_score := none
         review_status := none, reviewer_notes := none },
       { question_id := 4, payload := "p4", quality_score := none
         review_status := none, reviewer_notes := none }]
      (Progress.init 4) 10).2.reviewed = 3 ∧
    (stage_4_review_data mixedReviewEnv false
      [{ question_id := 1, payload := "p1", quality_score := none
         review_status := none, reviewer_notes := none },
       { question_id := 2, payload := "p2", quality_score := none
         review_status := none, reviewer_notes := none },
       { question_id := 3, payload := "p3", quality_score := none
         review_status := none, reviewer_notes := none },
       { question_id := 4, payload := "p4", quality_score := none
         review_status := none, reviewer_notes := none }]
      (Progress.init 4) 10).2.errors.length = 1 := by
  obtain ⟨hout, -, -, hrev, herr, -⟩ := c2_approval_gating mixedReviewEnv false
    [{ question_id := 1, payload := "p1", quality_score := none
       review_status := none, reviewer_notes := none },
     { question_id := 2, payload := "p2", quality_score := none
       review_status := none, reviewer_notes := none },
     { question_id := 3, payload := "p3", quality_score := none
       review_status := none, reviewer_notes := none },
     { question_id := 4, payload := "p4", quality_score := none
       review_status := none, reviewer_notes := none }]
    (Progress.init 4) 10 (by decide)
  refine ⟨?_, ?_, ?_⟩
  · rw [hout]; decide
  · rw [hrev]; decide
  · rw [herr]; decide

/-! ## Claim C3 -/

theorem stage_1_congr (env₂ env : Env) (h : env₂.stage1 = env.stage1)
    (qs : List String) (prog : Progress) :
    stage_1_store_questions env₂ qs prog = stage_1_store_questions env qs prog := by
  unfold stage_1_store_questions
  rw [h]

theorem researchStep_congr (env₂ env : Env) (h : env₂.research = env.research) :
    researchStep env₂ = researchStep env := by
  funext acc q
  unfold researchStep
  rw [h]

theorem stage_2_congr (env₂ env : Env) (h : env₂.research = env.research)
    (ids : List Qid) (prog : Progress) (B : Nat) :
    stage_2_research_questions env₂ ids prog B =
      stage_2_research_questions env ids prog B := by
  unfold stage_2_research_questions
  rw [researchStep_congr env₂ env h]

theorem runIds_congr (env₂ env : Env) (h : env₂.stage1 = env.stage1)
    (qs : List String) (maxq : Option Nat) :
    runIds env₂ qs maxq = runIds env qs maxq := by
  unfold runIds
  rw [stage_1_congr env₂ env h]

/-- C3: a run whose stage 1 yields zero ids returns `status = "error"`
without consulting the later stages' collaborators; a run whose stage 2
yields zero researched ids returns `status = "error"` without consulting
generation/review/storage; but a run whose stage 3 yields zero generated
items still proceeds through stages 4 and 5 and produces the structured
completed result (summary and errors list present) with `generated = 0`. -/
theorem c3_abort_asymmetry (env : Env) (qs : List String) (tt : String)
    (maxq : Option Nat) (auto : Bool) (B : Nat) (hB : 0 < B) :
    (runIds env qs maxq = [] →
       ((generate_synthetic_data env qs tt maxq auto B).status = "error" ∧
        (generate_synthetic_data env qs tt maxq auto B).error =
          some "Failed to add questions to database" ∧
        (generate_synthetic_data env qs tt maxq auto B).summary = none ∧
        (∀ env₂ : Env, env₂.stage1 = env.stage1 →
          generate_synthetic_data env₂ qs tt maxq auto B =
            generate_synthetic_data env qs tt maxq auto B))) ∧
    (runIds env qs maxq ≠ [] →
     (∀ q ∈ runIds env qs maxq, researchOk env q = false) →
       ((generate_synthetic_data env qs tt maxq auto B).status = "error" ∧
        (generate_synthetic_data env qs tt maxq auto B).error =
          some "No questions were successfully researched" ∧
        (generate_synthetic_data env qs tt maxq auto B).summary = none ∧
        (∀ env₂ : Env, env₂.stage1 = env.stage1 → env₂.research = env.research →
          generate_synthetic_data env₂ qs tt maxq auto B =
            generate_synthetic_data env qs tt maxq auto B))) ∧
    (runIds env qs maxq ≠ [] → runRids env qs maxq ≠ [] →
     isValidTrainingType tt = true →
     (∀ q ∈ runRids env qs maxq, genOk env q = false) →
       ((generate_synthetic_data env qs tt maxq auto B).summary.isSome = true ∧
        (generate_synthetic_data env qs tt maxq auto B).errorsField.isSome = true ∧
        (generate_synthetic_data env qs tt maxq auto B).progress.generated = 0 ∧
        (∀ s₀, (generate_synthetic_data env qs tt maxq auto B).summary =
          some s₀ → s₀.generated = 0))) := by
  refine ⟨?_, ?_, ?_⟩
  · intro h
    rw [run_abort1 env qs tt maxq auto B h]
    refine ⟨rfl, rfl, rfl, ?_⟩
    intro env₂ hagree
    rw [run_abort1 env₂ qs tt maxq auto B
      (by rw [runIds_congr env₂ env hagree]; exact h)]
    rw [stage_1_congr env₂ env hagree]
  · intro h1 hfail
    have h2 : (stage_2_research_questions env (runIds env qs maxq)
        (stage_1_store_questions env (runQs qs maxq)
          (Progress.init (runQs qs maxq).length)).2 B).1 = [] := by
      rw [stage_2_spec env _ _ B hB]
      simp only []
      rw [List.filter_eq_nil_iff]
      intro q hq
      simp [hfail q hq]
    rw [run_abort2 env qs tt maxq auto B h1 h2]
    refine ⟨rfl, rfl, rfl, ?_⟩
    intro env₂ hs1 hres
    have h1' : runIds env₂ qs maxq ≠ [] := by
      rw [runIds_congr env₂ env hs1]; exact h1
    have h2' : (stage_2_research_questions env₂ (runIds env₂ qs maxq)
        (stage_1_store_questions env₂ (runQs qs maxq)
          (Progress.init (runQs qs maxq).length)).2 B).1 = [] := by
      rw [stage_2_congr env₂ env hres, runIds_congr env₂ env hs1,
        stage_1_congr env₂ env hs1]
      exact h2
    rw [run_abort2 env₂ qs tt maxq auto B h1' h2']
    rw [stage_2_congr env₂ env hres, runIds_congr env₂ env hs1,
      stage_1_congr env₂ env hs1]
  · intro h1 h2 h3 hgen
    rw [run_completed env qs tt maxq auto B hB h1 h2 h3]
    have hzero : (runRids env qs maxq).countP (genOk env) = 0 := by
      rw [List.countP_eq_zero]
      intro q hq
      simp [hgen q hq]
    refine ⟨rfl, rfl, ?_, ?_⟩
    · simp [runCompletedOutput, runFinalProgress, hzero]
    · intro s₀ hs
      simp only [runCompletedOutput, Option.some.injEq] at hs
      rw [← hs]
      simp [runFinalProgress, hzero]

/-- Witness for C3 on one-question runs: stage 1 failing aborts with an
error; all research failing aborts with the stage-2 message; all
generation failing still completes (summary present, `generated = 0`). -/
theorem c3_abort_asymmetry_witness :
    (generate_synthetic_data stage1FailEnv ["Q1"] "sft" none false 10).status
      = "error" ∧
    (generate_synthetic_data researchAllFailEnv ["Q1"] "sft" none false 10).error
      = some "No questions were successfully researched" ∧
    (generate_synthetic_data generateAllFailEnv ["Q1"] "sft" none false 10).summary.isSome
      = true ∧
    (generate_synthetic_data generateAllFailEnv ["Q1"] "sft" none false 10).progress.generated
      = 0 := by
  obtain ⟨ha, -, -⟩ :=
    c3_abort_asymmetry stage1FailEnv ["Q1"] "sft" none false 10 (by decide)
  obtain ⟨-, hb, -⟩ :=
    c3_abort_asymmetry researchAllFailEnv ["Q1"] "sft" none false 10 (by decide)
  obtain ⟨-, -, hc⟩ :=
    c3_abort_asymmetry generateAllFailEnv ["Q1"] "sft" none false 10 (by decide)
  obtain ⟨ha1, -, -, -⟩ := ha (by decide)
  obtain ⟨-, hb2, -, -⟩ := hb (by decide) (by decide)
  obtain ⟨hc1, -, hc3, -⟩ := hc (by decide) (by decide) (by decide) (by decide)
  exact ⟨ha1, hb2, hc1, hc3⟩

/-! ## Claim C1 -/

/-- C1: for a completed (non-exception) run — one that produced a
summary — the final status, computed once at the end from the
accumulated counters, is `"success"` iff the `approved` counter equals
`total_questions`, `"partial"` iff it is strictly between `0` and
`total_questions`, and `"error"` iff it is `0`.  The hypothesis `hlen`
is the storage collaborator's contract that `add_questions_to_database`
returns one id per stored question. -/
theorem c1_final_status (env : Env) (qs : List String) (tt : String)
    (maxq : Option Nat) (auto : Bool) (B : Nat)
    (hlen : ∀ (qs' : List String) (ids : List Qid),
      env.stage1 qs' = WRes.success ids → ids.length = qs'.length)
    (hcomp : (generate_synthetic_data env qs tt maxq auto B).summary.isSome = true) :
    ((generate_synthetic_data env qs tt maxq auto B).status = "success" ↔
       (generate_synthetic_data env qs tt maxq auto B).progress.approved =
         (generate_synthetic_data env qs tt maxq auto B).progress.total_questions) ∧
    ((generate_synthetic_data env qs tt maxq auto B).status = "partial" ↔
       (0 < (generate_synthetic_data env qs tt maxq auto B).progress.approved ∧
        (generate_synthetic_data env qs tt maxq auto B).progress.approved <
          (generate_synthetic_data env qs tt maxq auto B).progress.total_questions)) ∧
    ((generate_synthetic_data env qs tt maxq auto B).status = "error" ↔
       (generate_synthetic_data env qs tt maxq auto B).progress.approved = 0) := by
  -- `batch_size = 0` never completes
  rcases Nat.eq_zero_or_pos B with rfl | hB
  · rw [summary_none_of_B0] at hcomp
    simp at hcomp
  -- stage-1 and stage-2 aborts and an invalid training type never complete
  by_cases h1 : runIds env qs maxq = []
  · rw [run_abort1 env qs tt maxq auto B h1] at hcomp
    simp at hcomp
  by_cases h2 : runRids env qs maxq = []
  · have h2' : (stage_2_research_questions env (runIds env qs maxq)
        (stage_1_store_questions env (runQs qs maxq)
          (Progress.init (runQs qs maxq).length)).2 B).1 = [] := by
      rw [stage_2_spec env _ _ B hB]
      exact h2
    rw [run_abort2 env qs tt maxq auto B h1 h2'] at hcomp
    simp at hcomp
  cases hv : isValidTrainingType tt with
  | false =>
    have h2' : (stage_2_research_questions env (runIds env qs maxq)
        (stage_1_store_questions env (runQs qs maxq)
          (Progress.init (runQs qs maxq).length)).2 B).1 ≠ [] := by
      rw [stage_2_spec env _ _ B hB]
      exact h2
    rw [run_invalid_tt env qs tt maxq auto B h1 h2' hv] at hcomp
    simp at hcomp
  | true =>
    rw [run_completed env qs tt maxq auto B hB h1 h2 hv]
    -- the approved counter is bounded by the number of questions
    have c5 : (runIds env qs maxq).length = (runQs qs maxq).length := by
      cases h : env.stage1 (runQs qs maxq) with
      | success ids =>
        have : runIds env qs maxq = ids := by
          simp [runIds, stage_1_store_questions, h]
        rw [this]
        exact hlen _ _ h
      | error m =>
        exfalso
        apply h1
        simp [runIds, stage_1_store_questions, h]
    have hA : runApproved env qs maxq auto ≤ (runQs qs maxq).length := by
      have b1 : runApproved env qs maxq auto
          ≤ (runRdata env qs maxq auto).length := List.countP_le_length _
      have b2 : (runRdata env qs maxq auto).length
          ≤ (runGdata env qs maxq).length := List.length_filterMap_le _ _
      have b3 : (runGdata env qs maxq).length
          ≤ (runRids env qs maxq).length := List.length_filterMap_le _ _
      have b4 : (runRids env qs maxq).length
          ≤ (runIds env qs maxq).length := List.length_filter_le _ _
      omega
    have hT : 0 < (runQs qs maxq).length := by
      have := List.length_pos.mpr h1
      omega
    show ((finalStatus (runApproved env qs maxq auto) (runQs qs maxq).length
        = "success") ↔ runApproved env qs maxq auto = (runQs qs maxq).length) ∧
      ((finalStatus (runApproved env qs maxq auto) (runQs qs maxq).length
        = "partial") ↔ (0 < runApproved env qs maxq auto ∧
          runApproved env qs maxq auto < (runQs qs maxq).length)) ∧
      ((finalStatus (runApproved env qs maxq auto) (runQs qs maxq).length
        = "error") ↔ runApproved env qs maxq auto = 0)
    unfold finalStatus
    by_cases hEq : runApproved env qs maxq auto = (runQs qs maxq).length
    · rw [if_pos hEq]
      exact ⟨⟨fun _ => hEq, fun _ => rfl⟩,
        ⟨fun h => absurd h (by decide), fun h => absurd h.2 (by omega)⟩,
        ⟨fun h => absurd h (by decide), fun h => absurd hT (by omega)⟩⟩
    · rw [if_neg hEq]
      by_cases hPos : 0 < runApproved env qs maxq auto
      · rw [if_pos hPos]
        exact ⟨⟨fun h => absurd h (by decide), fun h => absurd h hEq⟩,
          ⟨fun _ => ⟨hPos, by omega⟩, fun _ => rfl⟩,
          ⟨fun h => absurd h (by decide), fun h => absurd hPos (by omega)⟩⟩
      · rw [if_neg hPos]
        exact ⟨⟨fun h => absurd h (by decide), fun h => absurd h hEq⟩,
          ⟨fun h => absurd h (by decide), fun h => absurd h.1 hPos⟩,
          ⟨fun _ => by omega, fun _ => rfl⟩⟩

/-- Witness for C1: an all-success two-question run completes with
`approved = total_questions = 2` and status `"success"`. -/
theorem c1_final_status_witness :
    (generate_synthetic_data allOkEnv ["Q1", "Q2"] "sft" none false 10).status
      = "success" ∧
    (generate_synthetic_data allOkEnv ["Q1", "Q2"] "sft" none false 10).progress.approved
      = 2 := by
  obtain ⟨hs, -, -⟩ := c1_final_status allOkEnv ["Q1", "Q2"] "sft" none false 10
    (fun qs' ids h => by injection h with h'; rw [← h']; simp)
    (by decide)
  exact ⟨hs.mpr (by decide), by decide⟩

/-! ## Claim C4 -/

/-- Counterexample to C4 as stated: in `gtFailEnv` the stage-4
ground-truth lookup — a collaborator call made on behalf of item 1 —
fails (`get_question_by_id` returns its `{"error": ...}` dictionary),
yet the run records no error-log entry for the item and the item is not
dropped from the active set: it reaches the final stored set and the
run even reports full success.  So not every collaborator-call failure
on behalf of an item is recorded against it with the item dropped. -/
theorem c4_counterexample :
    gtFailEnv.get_question 1 = GtLookup.errorDict "database lookup failed" ∧
    (generate_synthetic_data gtFailEnv ["Q1"] "sft" none false 10).progress.errors
      = [] ∧
    (generate_synthetic_data gtFailEnv ["Q1"] "sft" none false 10).results.map
      (fun rs => rs.map (fun en => en.question_id)) = some [1] ∧
    (generate_synthetic_data gtFailEnv ["Q1"] "sft" none false 10).status
      = "success" := by
  refine ⟨rfl, ?_, ?_, ?_⟩ <;> decide

/-- C4 amended: for a completed run, every failure of a collaborator
call made *inside a per-item stage worker* is recovered locally (an
error-log entry against the item, item dropped), so every stage-1 id
missing from the final stored set has an error-log entry — except items
dropped by the review policy; the stage-4 ground-truth lookup is the one
exception to local recovery: its failure is converted to an empty
ground-truth context and the item proceeds without an error-log entry
(and without being dropped), and is never fatal to the run. -/
theorem c4_no_silent_loss (env : Env) (qs : List String) (tt : String)
    (maxq : Option Nat) (auto : Bool) (B : Nat) (hB : 0 < B)
    (h1 : runIds env qs maxq ≠ []) (h2 : runRids env qs maxq ≠ [])
    (h3 : isValidTrainingType tt = true) :
    (∀ q m, env.get_question q = GtLookup.errorDict m → gtString env q = "") ∧
    ((generate_synthetic_data env qs tt maxq auto B).results =
       some (runResults env qs maxq auto)) ∧
    (∀ q ∈ runIds env qs maxq,
       (∃ en ∈ runResults env qs maxq auto, en.question_id = q) ∨
       (∃ er ∈ (generate_synthetic_data env qs tt maxq auto B).progress.errors,
          er.question_id = q) ∨
       reviewFilteredOut env auto q = true) := by
  rw [run_completed env qs tt maxq auto B hB h1 h2 h3]
  refine ⟨?_, rfl, ?_⟩
  · intro q m h
    simp [gtString, h]
  · intro q hq
    show _ ∨ (∃ er ∈ runErrors env qs maxq auto, er.question_id = q) ∨ _
    cases hr : env.research q with
    | error msg =>
      refine Or.inr (Or.inl ⟨{ question_id := q, stage := "research", error := msg }, ?_, rfl⟩)
      unfold runErrors
      refine List.mem_append_left _ (List.mem_append_left _
        (List.mem_append_left _ ?_))
      exact List.mem_filterMap.mpr ⟨q, hq, by simp [researchErrEntry, hr]⟩
    | success u =>
      have hok : researchOk env q = true := by simp [researchOk, hr]
      have hqr : q ∈ runRids env qs maxq :=
        List.mem_filter.mpr ⟨hq, hok⟩
      cases hg : env.generate q with
      | error msg =>
        refine Or.inr (Or.inl ⟨{ question_id := q, stage := "generation", error := msg }, ?_, rfl⟩)
        unfold runErrors
        refine List.mem_append_left _ (List.mem_append_left _
          (List.mem_append_right _ ?_))
        exact List.mem_filterMap.mpr ⟨q, hqr, by simp [genErrEntry, hg]⟩
      | success payload =>
        have hd : genItem env q = some (mkGen q payload) := by
          simp [genItem, hg]
        have hdg : mkGen q payload ∈ runGdata env qs maxq :=
          List.mem_filterMap.mpr ⟨q, hqr, hd⟩
        cases hrev : reviewResult env (mkGen q payload) with
        | error msg =>
          refine Or.inr (Or.inl ⟨{ question_id := q, stage := "review", error := msg }, ?_, rfl⟩)
          unfold runErrors
          refine List.mem_append_left _ (List.mem_append_right _ ?_)
          refine List.mem_filterMap.mpr ⟨_, hdg, ?_⟩
          simp only [reviewErrEntry, hrev]
          simp [mkGen]
        | success r =>
          cases hs : shouldStoreVerdict auto r.review_status with
          | false =>
            refine Or.inr (Or.inr ?_)
            simp only [reviewFilteredOut, hd, hrev, hs]
            rfl
          | true =>
            have hret : reviewRetain env auto (mkGen q payload) =
                some (withReview (mkGen q payload) r) := by
              simp only [reviewRetain, hrev, hs]
              rfl
            have hmem : withReview (mkGen q payload) r ∈ runRdata env qs maxq auto :=
              List.mem_filterMap.mpr ⟨_, hdg, hret⟩
            cases hst : env.store_final (withReview (mkGen q payload) r) with
            | success gid =>
              have hen : storeEntry env (withReview (mkGen q payload) r) =
                  some { question_id := q, status := "success"
                         generated_id := gid
                         quality_score := (withReview (mkGen q payload) r).quality_score
                         review_status := (withReview (mkGen q payload) r).review_status } := by
                simp only [storeEntry, hst]
                simp [withReview, mkGen]
              exact Or.inl ⟨_, List.mem_filterMap.mpr ⟨_, hmem, hen⟩, rfl⟩
            | error msg =>
              refine Or.inr (Or.inl ⟨{ question_id := q, stage := "storage", error := msg }, ?_, rfl⟩)
              unfold runErrors
              refine List.mem_append_right _ ?_
              refine List.mem_filterMap.mpr ⟨_, hmem, ?_⟩
              simp only [storeErrEntry, hst]
              simp [withReview, mkGen]

/-- Witness for C4's amended statement: in the run where research fails
for question 2, the trichotomy at id 2 holds (concretely through its
error-log entry). -/
theorem c4_no_silent_loss_witness :
    (∃ en ∈ runResults research2FailsEnv ["Q1", "Q2"] none false,
       en.question_id = 2) ∨
    (∃ er ∈ (generate_synthetic_data research2FailsEnv ["Q1", "Q2"] "sft"
        none false 10).progress.errors, er.question_id = 2) ∨
    reviewFilteredOut research2FailsEnv false 2 = true := by
  obtain ⟨-, -, htr⟩ := c4_no_silent_loss research2FailsEnv ["Q1", "Q2"] "sft"
    none false 10 (by decide) (by decide) (by decide) (by decide)
  exact htr 2 (by decide)

/-! ## Claim C6 -/

theorem failThrice_eq (rt t1 t2 t3 : ℚ) (e1 e2 e3 : String) :
    failThrice rt t1 t2 t3 e1 e2 e3 =
      { failure_threshold := 3, recovery_timeout := rt, failure_count := 3
        last_failure_time := some t3, state := CircuitState.open_ } := by
  unfold failThrice CircuitBreaker.init
  simp [CircuitBreaker.call]

/-- C6: on a breaker with `failure_threshold = 3` starting CLOSED with
`failure_count = 0`, three consecutive failing calls leave the breaker
OPEN; a fourth call before `recovery_timeout` seconds have elapsed since
the last failure raises `CircuitBreakerOpenError` without invoking the
wrapped callable (the result does not depend on the callable's
behaviour and the breaker state is unchanged); once `recovery_timeout`
seconds have elapsed, the next call is attempted — the breaker moves to
HALF_OPEN and runs the callable — and on success the circuit is CLOSED
with `failure_count` reset to `0`. -/
theorem c6_breaker_trip (rt t1 t2 t3 t4 t5 : ℚ) (e1 e2 e3 : String) (v : Nat)
    (ht3 : t3 ≠ 0) (h4 : t4 - t3 < rt) (h5 : rt ≤ t5 - t3) :
    (failThrice rt t1 t2 t3 e1 e2 e3).state = CircuitState.open_ ∧
    (failThrice rt t1 t2 t3 e1 e2 e3).failure_count = 3 ∧
    (∀ o : CallOutcome Nat,
       (failThrice rt t1 t2 t3 e1 e2 e3).call t4 o =
         (CallResult.circuitOpenError, failThrice rt t1 t2 t3 e1 e2 e3)) ∧
    ((failThrice rt t1 t2 t3 e1 e2 e3).call t5 (CallOutcome.ok v) =
       (CallResult.ok v,
        { failure_threshold := 3, recovery_timeout := rt, failure_count := 0
          last_failure_time := some t3, state := CircuitState.closed })) := by
  rw [failThrice_eq]
  refine ⟨rfl, rfl, ?_, ?_⟩
  · intro o
    have hcond : ¬((pyTruthyTime (some t3) = true) ∧ rt ≤ t4 - (some t3).getD 0) :=
      fun hc => absurd hc.2 (by simpa using not_le.mpr h4)
    simp only [CircuitBreaker.call]
    rw [if_pos (show True from trivial), if_neg hcond]
  · have hcond : (pyTruthyTime (some t3) = true) ∧ rt ≤ t5 - (some t3).getD 0 :=
      ⟨by simp [pyTruthyTime, ht3], by simpa using h5⟩
    simp only [CircuitBreaker.call]
    rw [if_pos (show True from trivial), if_pos hcond]
    simp

/-- Witness for C6 with `recovery_timeout = 30`, failures at times
1, 2, 3, a blocked call at time 20, and a successful probe at time 100. -/
theorem c6_breaker_trip_witness :
    (failThrice 30 1 2 3 "e1" "e2" "e3").call 20 (CallOutcome.ok 42) =
      (CallResult.circuitOpenError, failThrice 30 1 2 3 "e1" "e2" "e3") ∧
    (failThrice 30 1 2 3 "e1" "e2" "e3").call 100 (CallOutcome.ok 42) =
      (CallResult.ok 42,
       { failure_threshold := 3, recovery_timeout := 30, failure_count := 0
         last_failure_time := some 3, state := CircuitState.closed }) := by
  obtain ⟨-, -, hblock, hprobe⟩ :=
    c6_breaker_trip 30 1 2 3 20 100 "e1" "e2" "e3" 42
      (by norm_num) (by norm_num) (by norm_num)
  exact ⟨hblock (CallOutcome.ok 42), hprobe⟩

/-! ## Claim C7 -/

/-- Counterexample to C7 as stated: with `failure_threshold = 3` and
`recovery_timeout = 30`, after failures at times 1, 2, 3 the breaker is
OPEN with `failure_count = 3`; the probe call at time 100 fails, yet the
breaker does **not** transition back to OPEN and the failure count does
**not** continue from its pre-probe value: entering HALF_OPEN reset it
to 0, the failing probe sets it to 1 (not 4), and since `1 < 3` the
breaker stays HALF_OPEN. -/
theorem c7_counterexample :
    ((failThrice 30 1 2 3 "e1" "e2" "e3").call 100
        (CallOutcome.fail "e4" : CallOutcome Nat)).2.state
      = CircuitState.half_open ∧
    ((failThrice 30 1 2 3 "e1" "e2" "e3").call 100
        (CallOutcome.fail "e4" : CallOutcome Nat)).2.failure_count = 1 ∧
    CircuitState.half_open ≠ CircuitState.open_ ∧
    (1 : Nat) ≠ 3 + 1 := by
  have hcond : (pyTruthyTime (some (3 : ℚ)) = true) ∧
      (30 : ℚ) ≤ 100 - (some (3 : ℚ)).getD 0 :=
    ⟨by decide, by norm_num⟩
  have key : (failThrice 30 1 2 3 "e1" "e2" "e3").call 100
      (CallOutcome.fail "e4" : CallOutcome Nat) =
      (CallResult.raised "e4",
       { failure_threshold := 3, recovery_timeout := 30, failure_count := 1
         last_failure_time := some 100, state := CircuitState.half_open }) := by
    rw [failThrice_eq]
    simp only [CircuitBreaker.call]
    rw [if_pos (show True from trivial), if_pos hcond]
    simp
  rw [key]
  refine ⟨rfl, rfl, by decide, by decide⟩

/-- C7 amended: a failing call while the breaker is HALF_OPEN records
the failure time, increments `failure_count` by one — from the value it
was reset to (0) when the breaker entered HALF_OPEN, not from the
accumulated pre-probe count — and transitions back to OPEN only when
the incremented count reaches `failure_threshold`; otherwise the breaker
remains HALF_OPEN.  In particular the probe immediately after recovery
fails with a resulting `failure_count` of exactly 1. -/
theorem c7_half_open_failure (b : CircuitBreaker) (now : ℚ) (e : String)
    (h : b.state = CircuitState.half_open) :
    (b.call now (CallOutcome.fail e : CallOutcome Unit) =
      (CallResult.raised e,
       { b with failure_count := b.failure_count + 1
                last_failure_time := some now
                state := if b.failure_threshold ≤ b.failure_count + 1
                         then CircuitState.open_
                         else CircuitState.half_open })) ∧
    (∀ (b' : CircuitBreaker) (t0 : ℚ), b'.state = CircuitState.open_ →
       b'.last_failure_time = some t0 → t0 ≠ 0 →
       b'.recovery_timeout ≤ now - t0 →
       ((b'.call now (CallOutcome.fail e : CallOutcome Unit)).2.failure_count = 1 ∧
        (b'.call now (CallOutcome.fail e : CallOutcome Unit)).2.state =
          (if b'.failure_threshold ≤ 1 then CircuitState.open_
           else CircuitState.half_open))) := by
  constructor
  · have hno : ¬(b.state = CircuitState.open_) := by rw [h]; decide
    simp only [CircuitBreaker.call]
    rw [if_neg hno]
    simp [h]
  · intro b' t0 hst hlft ht0 helapsed
    have hcond : (pyTruthyTime b'.last_failure_time = true) ∧
        b'.recovery_timeout ≤ now - b'.last_failure_time.getD 0 := by
      rw [hlft]
      exact ⟨by simp [pyTruthyTime, ht0], by simpa using helapsed⟩
    simp only [CircuitBreaker.call]
    rw [if_pos hst, if_pos hcond]
    simp

/-- Witness for C7's amended statement: a HALF_OPEN breaker with
threshold 3 and count 0 stays HALF_OPEN with count 1 after one failure. -/
theorem c7_half_open_failure_witness :
    ({ failure_threshold := 3, recovery_timeout := 30, failure_count := 0
       last_failure_time := some 50
       state := CircuitState.half_open } : CircuitBreaker).call 60
      (CallOutcome.fail "e" : CallOutcome Unit) =
      (CallResult.raised "e",
       { failure_threshold := 3, recovery_timeout := 30, failure_count := 1
         last_failure_time := some 60, state := CircuitState.half_open }) := by
  have h := (c7_half_open_failure
    { failure_threshold := 3, recovery_timeout := 30, failure_count := 0
      last_failure_time := some 50, state := CircuitState.half_open }
    60 "e" rfl).1
  exact h.trans (by decide)

/-! ## Claim C8 -/

theorem retryGoSt_ok (cfg : RetryCfg) (f : Nat → σ → AttemptOutcome α × σ)
    (k : Nat) (rest : List Nat) (s s' : σ) (v : α)
    (hf : f k s = (AttemptOutcome.ok v, s')) :
    retryGoSt cfg f (k :: rest) s =
      ({ outcome := RetryOutcome.ok v, delays := [], invocations := 1 }, s') := by
  simp only [retryGoSt, hf]

theorem retryGoSt_nonretry (cfg : RetryCfg) (f : Nat → σ → AttemptOutcome α × σ)
    (k : Nat) (rest : List Nat) (s s' : σ) (e : String)
    (hf : f k s = (AttemptOutcome.exc e false, s')) :
    retryGoSt cfg f (k :: rest) s =
      ({ outcome := RetryOutcome.raised e, delays := [], invocations := 1 }, s') := by
  simp only [retryGoSt, hf]
  rw [if_pos (show True from trivial)]

theorem retryGoSt_last (cfg : RetryCfg) (f : Nat → σ → AttemptOutcome α × σ)
    (k : Nat) (rest : List Nat) (s s' : σ) (e : String)
    (hf : f k s = (AttemptOutcome.exc e true, s'))
    (hk : k = cfg.max_attempts - 1) :
    retryGoSt cfg f (k :: rest) s =
      ({ outcome := RetryOutcome.raised e, delays := [], invocations := 1 }, s') := by
  simp only [retryGoSt, hf]
  rw [if_neg (by simp), if_pos hk]

theorem retryGoSt_retry (cfg : RetryCfg) (f : Nat → σ → AttemptOutcome α × σ)
    (k : Nat) (rest : List Nat) (s s' : σ) (e : String)
    (hf : f k s = (AttemptOutcome.exc e true, s'))
    (hk : ¬(k = cfg.max_attempts - 1)) :
    retryGoSt cfg f (k :: rest) s =
      ({ outcome := (retryGoSt cfg f rest s').1.outcome
         delays := cfg.delayFor k :: (retryGoSt cfg f rest s').1.delays
         invocations := (retryGoSt cfg f rest s').1.invocations + 1 },
       (retryGoSt cfg f rest s').2) := by
  simp only [retryGoSt, hf]
  rw [if_neg (by simp), if_neg hk]

theorem retry_fail_all (cfg : RetryCfg) (f : Nat → AttemptOutcome α)
    (e : Nat → String) (hf : ∀ k, f k = AttemptOutcome.exc (e k) true) :
    ∀ (n s : Nat), s + n = cfg.max_attempts → 1 ≤ n →
      retryGoSt cfg (fun k st => (f k, st)) (List.range' s n) () =
        ({ outcome := RetryOutcome.raised (e (cfg.max_attempts - 1))
           delays := (List.range' s (n - 1)).map cfg.delayFor
           invocations := n }, ()) := by
  intro n
  induction n with
  | zero => intro s _ h1; exact absurd h1 (by omega)
  | succ m ih =>
    intro s hsum h1
    rw [List.range'_succ]
    rcases Nat.eq_zero_or_pos m with rfl | hm
    · have hs : s = cfg.max_attempts - 1 := by omega
      rw [retryGoSt_last cfg _ s _ () () (e s) (by rw [hf s]) hs]
      simp [hs]
    · have hs : ¬(s = cfg.max_attempts - 1) := by omega
      obtain ⟨m', rfl⟩ : ∃ m', m = m' + 1 := ⟨m - 1, by omega⟩
      rw [retryGoSt_retry cfg _ s _ () () (e s) (by rw [hf s]) hs]
      rw [ih (s + 1) (by omega) (by omega)]
      simp only [Nat.add_sub_cancel]
      rw [List.range'_succ, List.map_cons]

theorem retry_delays_shape (cfg : RetryCfg) (f : Nat → AttemptOutcome α) :
    ∀ (n s : Nat), ∃ m,
      (retryGoSt cfg (fun k st => (f k, st)) (List.range' s n) ()).1.delays =
        (List.range' s m).map cfg.delayFor := by
  intro n
  induction n with
  | zero => exact fun s => ⟨0, by simp [retryGoSt]⟩
  | succ m ih =>
    intro s
    rw [List.range'_succ]
    cases hf : f s with
    | ok v =>
      exact ⟨0, by rw [retryGoSt_ok cfg _ s _ () () v (by rw [hf])]; simp⟩
    | exc e r =>
      cases r with
      | false =>
        exact ⟨0, by rw [retryGoSt_nonretry cfg _ s _ () () e (by rw [hf])]; simp⟩
      | true =>
        by_cases hs : s = cfg.max_attempts - 1
        · exact ⟨0, by
            rw [retryGoSt_last cfg _ s _ () () e (by rw [hf]) hs]; simp⟩
        · obtain ⟨m', hm'⟩ := ih (s + 1)
          refine ⟨m' + 1, ?_⟩
          rw [retryGoSt_retry cfg _ s _ () () e (by rw [hf]) hs]
          rw [List.range'_succ, List.map_cons]
          simpa using hm'

/-- C8: for a callable wrapped by `retry_with_backoff`:
a permanently failing retryable callable is invoked exactly
`max_attempts` times, sleeping
`min(initial_delay * exponential_base^(k-1), max_delay)` after the
`k`-th failure for `k < max_attempts` (attempt 1 runs immediately — the
delay list has one entry fewer than the attempts), and the last failure
is then propagated unchanged; a failure whose kind is not in `retry_on`
propagates immediately after a single invocation with no delay; and on
any callable every slept delay follows the deterministic backoff
formula (the delays are always the backoffs of attempts `0, …, n-1` in
order). -/
theorem c8_retry_backoff (α : Type) (cfg : RetryCfg)
    (h1 : 1 ≤ cfg.max_attempts) :
    (∀ e : Nat → String,
       retry_with_backoff cfg
         (fun k => (AttemptOutcome.exc (e k) true : AttemptOutcome α)) =
         { outcome := RetryOutcome.raised (e (cfg.max_attempts - 1))
           delays := (List.range (cfg.max_attempts - 1)).map cfg.delayFor
           invocations := cfg.max_attempts }) ∧
    (∀ (f : Nat → AttemptOutcome α) (e : String),
       f 0 = AttemptOutcome.exc e false →
       retry_with_backoff cfg f =
         { outcome := RetryOutcome.raised e, delays := [], invocations := 1 }) ∧
    (∀ k, cfg.delayFor k =
       min (cfg.initial_delay * cfg.exponential_base ^ k) cfg.max_delay) ∧
    (∀ f : Nat → AttemptOutcome α, ∃ n,
       (retry_with_backoff cfg f).delays =
         (List.range n).map cfg.delayFor) := by
  refine ⟨?_, ?_, fun k => rfl, ?_⟩
  · intro e
    have h := retry_fail_all cfg
      (fun k => (AttemptOutcome.exc (e k) true : AttemptOutcome α)) e
      (fun k => rfl) cfg.max_attempts 0 (by omega) h1
    unfold retry_with_backoff
    rw [List.range_eq_range', h]
    rw [List.range_eq_range']
  · intro f e h0
    unfold retry_with_backoff
    obtain ⟨m, hm⟩ : ∃ m, cfg.max_attempts = m + 1 :=
      ⟨cfg.max_attempts - 1, by omega⟩
    rw [hm, List.range_eq_range', List.range'_succ]
    simp [retryGoSt, h0]
  · intro f
    obtain ⟨n, hn⟩ := retry_delays_shape cfg f cfg.max_attempts 0
    refine ⟨n, ?_⟩
    unfold retry_with_backoff
    rw [List.range_eq_range', hn, List.range_eq_range']

/-- Witness for C8 with `max_attempts = 3, initial_delay = 1,
max_delay = 10, exponential_base = 2` and a permanently failing
callable: three invocations, delays 1.0 then 2.0, original error
re-raised. -/
theorem c8_retry_backoff_witness :
    retry_with_backoff
      { max_attempts := 3, initial_delay := 1, max_delay := 10
        exponential_base := 2 }
      (fun _ => (AttemptOutcome.exc "boom" true : AttemptOutcome Nat)) =
      { outcome := RetryOutcome.raised "boom", delays := [1, 2]
        invocations := 3 } := by
  obtain ⟨hfail, -, -, -⟩ := c8_retry_backoff Nat
    { max_attempts := 3, initial_delay := 1, max_delay := 10
      exponential_base := 2 } (by decide)
  rw [hfail (fun _ => "boom")]
  norm_num [RetryCfg.delayFor, min_def, List.range_succ]

/-! ## Claim C9 -/

theorem researchWorkerBody_fail_error (b : CircuitBreaker) (now : ℚ) (e : String) :
    ∃ m, (researchWorkerBody b now (CallOutcome.fail e)).1 = WRes.error m := by
  unfold researchWorkerBody CircuitBreaker.call
  by_cases h : b.state = CircuitState.open_
  · rw [if_pos h]
    by_cases hc : (pyTruthyTime b.last_failure_time = true) ∧
        b.recovery_timeout ≤ now - b.last_failure_time.getD 0
    · rw [if_pos hc]
      exact ⟨e, rfl⟩
    · rw [if_neg hc]
      exact ⟨"Circuit breaker open", rfl⟩
  · rw [if_neg h]
    exact ⟨e, rfl⟩

/-- C9 (the `retry_with_backoff(max_attempts=3, …)` decorator on
`_research_single_question` is dead): the worker body catches
`CircuitBreakerOpenError` and every other exception and returns an
error-result dictionary, so each attempt ends with a normal return, the
wrapper's `except retry_on` arm can never fire, and the wrapped worker
performs exactly **one** invocation of its body — consulting the shared
circuit breaker once and sleeping no backoff — before the item is
reported failed, never the up-to-3 attempts the claim describes. -/
theorem c9_worker_retry_ineffective (b : CircuitBreaker) (now : ℚ) (e : String) :
    (research_single_question b now (fun _ => CallOutcome.fail e)).1.invocations
      = 1 ∧
    (research_single_question b now (fun _ => CallOutcome.fail e)).1.delays
      = [] ∧
    (research_single_question b now (fun _ => CallOutcome.fail e)).1.outcome
      = RetryOutcome.ok (researchWorkerBody b now (CallOutcome.fail e)).1 ∧
    (∃ m, (researchWorkerBody b now (CallOutcome.fail e)).1 = WRes.error m) ∧
    (research_single_question b now (fun _ => CallOutcome.fail e)).2
      = (researchWorkerBody b now (CallOutcome.fail e)).2 := by
  have key : research_single_question b now (fun _ => CallOutcome.fail e) =
      ({ outcome := RetryOutcome.ok (researchWorkerBody b now (CallOutcome.fail e)).1
         delays := [], invocations := 1 },
       (researchWorkerBody b now (CallOutcome.fail e)).2) := by
    unfold research_single_question
    rw [show List.range workerRetryCfg.max_attempts = [0, 1, 2] from rfl]
    exact retryGoSt_ok workerRetryCfg _ 0 [1, 2] b
      (researchWorkerBody b now (CallOutcome.fail e)).2
      (researchWorkerBody b now (CallOutcome.fail e)).1 rfl
  rw [key]
  exact ⟨rfl, rfl, rfl, researchWorkerBody_fail_error b now e, rfl⟩

end SyntheticDataAgent
